import Mathlib

/-!
# NNStreamer: the TVM tensor-filter sub-plugin and the tensor-query command set

A shallow embedding of

* `ext/nnstreamer/tensor_filter/tensor_filter_tvm.cc` (class `tvm_subplugin`), and
* `gst/nnstreamer/tensor_query/tensor_query_common.h` (protocol and command enums,
  `TensorQueryDataInfo`, `TensorQueryCommandData`),

followed by theorems about them.  C++ member functions become functions that take
the object (`self`) and return the updated object; a member function that throws
returns the object as it is at the `throw` together with the message.  Unsigned
machine integers are natural numbers, reduced modulo `2 ^ w` where a conversion
can wrap.
-/

set_option autoImplicit false

namespace nnstreamer

/-! ## Declarations of `tensor_typedef.h` used by the sources -/

/-- The constant `NNS_TENSOR_RANK_LIMIT` of `tensor_typedef.h`. -/
abbrev NNS_TENSOR_RANK_LIMIT : Nat := 4

/-- The constant `NNS_TENSOR_SIZE_LIMIT` of `tensor_typedef.h` ("16 by default" in the
log message of `set_tensor_info`). -/
abbrev NNS_TENSOR_SIZE_LIMIT : Nat := 16

/-- The enum `tensor_type` of `tensor_typedef.h`: ten element types and the
terminator `_NNS_END`. -/
inductive tensor_type where
  | _NNS_INT32
  | _NNS_UINT32
  | _NNS_INT16
  | _NNS_UINT16
  | _NNS_INT8
  | _NNS_UINT8
  | _NNS_FLOAT64
  | _NNS_FLOAT32
  | _NNS_INT64
  | _NNS_UINT64
  | _NNS_END
  deriving DecidableEq, Repr

open tensor_type

/-- The type `tensor_dim`: `uint32_t[NNS_TENSOR_RANK_LIMIT]`. -/
abbrev tensor_dim := Fin NNS_TENSOR_RANK_LIMIT → Nat

/-- The struct `GstTensorInfo`: `name` (a nullable C string), `type`, `dimension`. -/
structure GstTensorInfo where
  name : Option String
  type : tensor_type
  dimension : tensor_dim

/-- The struct `GstTensorsInfo`: `num_tensors` and `info[NNS_TENSOR_SIZE_LIMIT]`. -/
structure GstTensorsInfo where
  num_tensors : Nat
  info : Fin NNS_TENSOR_SIZE_LIMIT → GstTensorInfo

/-- Reading `a[i]` of an `info` array.  An index at or above `NNS_TENSOR_SIZE_LIMIT`
is outside the C array; the model then yields an all-zero entry. -/
def info_get (a : Fin NNS_TENSOR_SIZE_LIMIT → GstTensorInfo) (i : Nat) : GstTensorInfo :=
  if h : i < NNS_TENSOR_SIZE_LIMIT then a ⟨i, h⟩ else ⟨none, _NNS_END, fun _ => 0⟩

/-- Writing `a[i] = v` of an `info` array.  An index at or above
`NNS_TENSOR_SIZE_LIMIT` is outside the C array; the model then leaves the array as
it is. -/
def info_set (a : Fin NNS_TENSOR_SIZE_LIMIT → GstTensorInfo) (i : Nat) (v : GstTensorInfo) :
    Fin NNS_TENSOR_SIZE_LIMIT → GstTensorInfo :=
  fun j => if j.val = i then v else a j

/-- Modelled from the spec: `gst_tensor_info_init` of `tensor_common.c`, which is not
under the given sources and which the spec does not describe; it resets one entry
(null name, `_NNS_END`, zero dimensions). -/
def gst_tensor_info_init (_info : GstTensorInfo) : GstTensorInfo :=
  ⟨none, _NNS_END, fun _ => 0⟩

/-- Modelled from the spec: `gst_tensor_info_copy` of `tensor_common.c`, which is not
under the given sources and which the spec does not describe; as the `getModelInfo`
test expects, it copies name, type and every dimension of `src` into `dest`. -/
def gst_tensor_info_copy (_dest src : GstTensorInfo) : GstTensorInfo :=
  ⟨src.name, src.type, fun k => src.dimension k⟩

/-- Modelled from the spec: `gst_tensors_info_init` of `tensor_common.c` (not under
the given sources): zero tensors, every entry reset. -/
def gst_tensors_info_init (info : GstTensorsInfo) : GstTensorsInfo :=
  ⟨0, fun j => gst_tensor_info_init (info.info j)⟩

/-- Modelled from the spec: `gst_tensors_info_copy` of `tensor_common.c` (not under
the given sources): `dest` is reset, takes the tensor count of `src`, and entry `i`
is copied for every `i` below that count. -/
def gst_tensors_info_copy (dest src : GstTensorsInfo) : GstTensorsInfo :=
  let d := gst_tensors_info_init dest
  ⟨src.num_tensors,
    (List.range src.num_tensors).foldl
      (fun a i => info_set a i (gst_tensor_info_copy (info_get a i) (info_get src.info i)))
      d.info⟩

/-! ## DLPack declarations (`dlpack/dlpack.h`) used by the sources -/

/-- The device kinds of `DLDeviceType` that the sub-plugin names. -/
inductive DLDeviceType where
  | kDLCPU
  | kDLGPU
  deriving DecidableEq, Repr

/-- The struct `DLDevice`. -/
structure DLDevice where
  device_type : DLDeviceType
  device_id : Int
  deriving DecidableEq, Repr

/-- The enum `DLDataTypeCode`: `kDLInt = 0`, `kDLUInt = 1`, `kDLFloat = 2`. -/
inductive DLDataTypeCode where
  | kDLInt
  | kDLUInt
  | kDLFloat
  deriving DecidableEq, Repr

/-- The struct `DLDataType`: `code`, `bits` (`uint8_t`), `lanes` (`uint16_t`). -/
structure DLDataType where
  code : DLDataTypeCode
  bits : Nat
  lanes : Nat
  deriving DecidableEq, Repr

open DLDeviceType DLDataTypeCode

/-! ## glib string helpers used by `parse_custom_prop` -/

/-- Splitting a character list at every occurrence of `sep`, keeping empty pieces;
there is always at least one piece. -/
def split_at (sep : Char) : List Char → List (List Char)
  | [] => [[]]
  | c :: cs =>
    if c = sep then [] :: split_at sep cs
    else
      match split_at sep cs with
      | [] => [[c]]
      | piece :: pieces => (c :: piece) :: pieces

/-- The glib function `g_strsplit (string, delimiter, -1)` for a one-character
delimiter: the pieces between the delimiters, empty pieces included, except that
the empty string splits into the empty vector (glib documents this special case).
The token bound `G_MAXINT` that `max_tokens = -1` stands for is not modelled. -/
def g_strsplit (string : List Char) (delimiter : Char) : List (List Char) :=
  if string = [] then [] else split_at delimiter string

/-- The glib function `g_strv_length`. -/
def g_strv_length (v : List (List Char)) : Nat := v.length

/-- The glib predicate `g_ascii_isspace`: space, horizontal tab, newline, form feed
and carriage return (glib's table does not count the vertical tab). -/
def g_ascii_isspace (c : Char) : Bool :=
  c = ' ' || c = '\t' || c = '\n' || c.toNat = 12 || c = '\r'

/-- The glib function `g_strstrip`: leading and trailing white space removed. -/
def g_strstrip (s : List Char) : List Char :=
  ((s.dropWhile g_ascii_isspace).reverse.dropWhile g_ascii_isspace).reverse

/-- The glib function `g_ascii_tolower`: `'A'..'Z'` mapped to `'a'..'z'`, every other
character unchanged. -/
def g_ascii_tolower (c : Char) : Char :=
  if 65 ≤ c.toNat ∧ c.toNat ≤ 90 then Char.ofNat (c.toNat + 32) else c

/-- Whether `g_ascii_strcasecmp (a, b) == 0`: the strings agree once both are
lowered with `g_ascii_tolower`. -/
def g_ascii_strcasecmp_eq (a b : List Char) : Bool :=
  a.map g_ascii_tolower = b.map g_ascii_tolower

/-! ## The TVM runtime, as far as `configure_instance` calls it -/

/-- The TVM runtime is an external library; it enters as a parameter.  A result
`none` stands for a call that throws. -/
structure TvmRuntime where
  /-- The call `tvm::runtime::Module::LoadFromFile (model_path, "so")`: the handle of
  the loaded module. -/
  LoadFromFile : String → Option Nat
  /-- The call `mod_factory.GetFunction ("default") (device)`: the handle of the
  graph executor module. -/
  GetDefault : Nat → DLDevice → Option Nat
  /-- The value `(int) gmod.GetFunction ("get_num_inputs") ()`. -/
  get_num_inputs : Nat → Int
  /-- The value `(int) gmod.GetFunction ("get_num_outputs") ()`. -/
  get_num_outputs : Nat → Int

/-- Conversion of an `int` argument to the `unsigned int` parameter `num_tensors`. -/
def int_to_unsigned (n : Int) : Nat := (n % (2 : Int) ^ 32).toNat

/-! ## `tensor_filter_tvm.cc` -/

/-- The struct `tvm_data_info`. -/
structure tvm_data_info where
  shape : List Int
  dtype : DLDataType
  deriving DecidableEq, Repr

/-- The data members of class `tvm_subplugin`. -/
structure tvm_subplugin where
  empty_model : Bool
  model_path : Option String
  inputInfo : GstTensorsInfo
  outputInfo : GstTensorsInfo
  device : DLDevice
  mod_factory : Option Nat
  gmod : Option Nat
  input_info_list : List tvm_data_info
  output_info_list : List tvm_data_info

/-- The constructor `tvm_subplugin::tvm_subplugin ()`.  The `info` arrays are not
initialised by the constructor; `info0` is what they hold. -/
def tvm_subplugin.new (info0 : Fin NNS_TENSOR_SIZE_LIMIT → GstTensorInfo) : tvm_subplugin :=
  { empty_model := true
    model_path := none
    inputInfo := ⟨0, info0⟩
    outputInfo := ⟨0, info0⟩
    device := ⟨kDLCPU, 0⟩
    mod_factory := none
    gmod := none
    input_info_list := []
    output_info_list := [] }

/-- The method `tvm_subplugin::cleanup`. -/
def cleanup (self : tvm_subplugin) : tvm_subplugin :=
  if self.empty_model then self
  else
    { self with
      input_info_list := []
      output_info_list := []
      model_path := none
      inputInfo := { self.inputInfo with num_tensors := 0 }
      outputInfo := { self.outputInfo with num_tensors := 0 }
      empty_model := true }

/-- One pass of the body of the `for` loop of `parse_custom_prop` over `options[op]`:
the flag `invalid_option` and the device afterwards. -/
def parse_option (device : DLDevice) (options_op : List Char) : Bool × DLDevice :=
  let option := g_strsplit options_op ':'
  if g_strv_length option > 1 then
    let option0 := g_strstrip (option.getD 0 [])
    let option1 := g_strstrip (option.getD 1 [])
    if g_ascii_strcasecmp_eq option0 "device".toList then
      if g_ascii_strcasecmp_eq option1 "CPU".toList then (false, ⟨kDLCPU, 0⟩)
      else if g_ascii_strcasecmp_eq option1 "GPU".toList then (false, ⟨kDLGPU, 0⟩)
      else (true, device)
    else (false, device)
  else (false, device)

/-- The `for` loop of `parse_custom_prop`, with its `break` on `invalid_option`. -/
def parse_options (device : DLDevice) : List (List Char) → Bool × DLDevice
  | [] => (false, device)
  | options_op :: rest =>
    match parse_option device options_op with
    | (true, device1) => (true, device1)
    | (false, device1) => parse_options device1 rest

/-- The method `tvm_subplugin::parse_custom_prop`: the returned flag and the member
`device` afterwards. -/
def parse_custom_prop (device : DLDevice) (custom_prop : Option String) : Bool × DLDevice :=
  match custom_prop with
  | none => (true, device)
  | some s =>
    let r := parse_options device (g_strsplit s.toList ',')
    (!r.1, r.2)

/-- The method `tvm_subplugin::convert_nns_type`: the returned flag and `tvm_type`
afterwards. -/
def convert_nns_type (nns_type : tensor_type) (tvm_type : DLDataType) : Bool × DLDataType :=
  let tvm_type := { tvm_type with lanes := 1 }
  match nns_type with
  | _NNS_FLOAT32 => (true, { tvm_type with code := kDLFloat, bits := 32 })
  | _NNS_FLOAT64 => (true, { tvm_type with code := kDLFloat, bits := 64 })
  | _NNS_INT8 => (true, { tvm_type with code := kDLInt, bits := 8 })
  | _NNS_UINT8 => (true, { tvm_type with code := kDLInt, bits := 8 })
  | _NNS_INT16 => (true, { tvm_type with code := kDLInt, bits := 16 })
  | _NNS_UINT16 => (true, { tvm_type with code := kDLInt, bits := 16 })
  | _NNS_INT32 => (true, { tvm_type with code := kDLFloat, bits := 32 })
  | _NNS_UINT32 => (true, { tvm_type with code := kDLFloat, bits := 32 })
  | _NNS_INT64 => (true, { tvm_type with code := kDLFloat, bits := 64 })
  | _NNS_UINT64 => (true, { tvm_type with code := kDLFloat, bits := 64 })
  | _NNS_END => (false, tvm_type)

/-- The value of the local `tvm_info.dtype` of `configure_meta` before
`convert_nns_type` fills it (it is not initialised in the source). -/
def dtype_uninit : DLDataType := ⟨kDLInt, 0, 0⟩

/-- The `for` loop of `configure_meta` from index `i` with `count` iterations left:
the returned flag (`false` for the early `return false`) and `tensor_info_list`
afterwards. -/
def configure_meta_loop (tensor_meta : GstTensorsInfo) :
    Nat → Nat → List tvm_data_info → Bool × List tvm_data_info
  | 0, _, tensor_info_list => (true, tensor_info_list)
  | count + 1, i, tensor_info_list =>
    let info := info_get tensor_meta.info i
    let shape : List Int := List.ofFn (fun k => (info.dimension k : Int))
    match convert_nns_type info.type dtype_uninit with
    | (false, _) => (false, tensor_info_list)
    | (true, dtype) =>
      configure_meta_loop tensor_meta count (i + 1) (tensor_info_list ++ [⟨shape, dtype⟩])

/-- The method `tvm_subplugin::configure_meta`. -/
def configure_meta (tensor_meta : GstTensorsInfo) (tensor_info_list : List tvm_data_info) :
    Bool × List tvm_data_info :=
  configure_meta_loop tensor_meta tensor_meta.num_tensors 0 tensor_info_list

/-- What `set_tensor_info` leaves behind: the returned flag, `dest_info`, and the
indices of `dest_info.info` and `src_info.info` it touched, in order. -/
structure SetTensorInfo where
  ret : Bool
  dest_info : GstTensorsInfo
  accessed : List Nat

/-- The method `tvm_subplugin::set_tensor_info`. -/
def set_tensor_info (dest_info src_info : GstTensorsInfo) (num_tensors : Nat) : SetTensorInfo :=
  if num_tensors > NNS_TENSOR_SIZE_LIMIT then ⟨false, dest_info, []⟩
  else
    let r := (List.range num_tensors).foldl
      (fun (acc : (Fin NNS_TENSOR_SIZE_LIMIT → GstTensorInfo) × List Nat) i =>
        (info_set acc.1 i (gst_tensor_info_copy (info_get acc.1 i) (info_get src_info.info i)),
          acc.2 ++ [i]))
      (dest_info.info, [])
    ⟨true, ⟨num_tensors, r.1⟩, r.2⟩

/-- The struct `GstTensorFilterProperties`, as far as `configure_instance` reads it.
`model_files` is the null-terminated array, so `model_files[0]` is its head and is
null when the list is empty. -/
structure GstTensorFilterProperties where
  model_files : List String
  custom_properties : Option String
  input_meta : GstTensorsInfo
  output_meta : GstTensorsInfo

/-- The outcome of `configure_instance`: the message of the exception it threw, if
any, and the object afterwards. -/
structure Configured where
  thrown : Option String
  self : tvm_subplugin

/-- The part of `configure_instance` after the model is read (from the first
`set_tensor_info` to the end), with `g` the handle held by `gmod`. -/
def configure_tensors (tvm : TvmRuntime) (self : tvm_subplugin)
    (prop : GstTensorFilterProperties) (g : Nat) : Configured :=
  let r_in := set_tensor_info self.inputInfo prop.input_meta
    (int_to_unsigned (tvm.get_num_inputs g))
  let self := { self with inputInfo := r_in.dest_info }
  if !r_in.ret then ⟨some "Failed to set tensor info.", self⟩
  else
    let r_out := set_tensor_info self.outputInfo prop.output_meta
      (int_to_unsigned (tvm.get_num_outputs g))
    let self := { self with outputInfo := r_out.dest_info }
    if !r_out.ret then ⟨some "Failed to set tensor info.", self⟩
    else
      let m_in := configure_meta self.inputInfo self.input_info_list
      let self := { self with input_info_list := m_in.2 }
      if !m_in.1 then ⟨some "Failed to configure tensor meta.", self⟩
      else
        let m_out := configure_meta self.outputInfo self.output_info_list
        let self := { self with output_info_list := m_out.2 }
        if !m_out.1 then ⟨some "Failed to configure tensor meta.", self⟩
        else ⟨none, { self with empty_model := false }⟩

/-- The part of `configure_instance` from the comment `read model` on.  A null
`model_files[0]` reaching `LoadFromFile` (which takes a `std::string`) is taken to
throw. -/
def read_model (tvm : TvmRuntime) (self : tvm_subplugin)
    (prop : GstTensorFilterProperties) : Configured :=
  let self := { self with model_path := prop.model_files.head? }
  match self.model_path with
  | none => ⟨some "basic_string: construction from null is not valid", self⟩
  | some path =>
    match tvm.LoadFromFile path with
    | none => ⟨some "LoadFromFile failed", self⟩
    | some factory =>
      let self := { self with mod_factory := some factory }
      match tvm.GetDefault factory self.device with
      | none => ⟨some "GetFunction (default) failed", self⟩
      | some g => configure_tensors tvm { self with gmod := some g } prop g

/-- The method `tvm_subplugin::configure_instance`: the custom property is parsed,
a configured instance is cleaned up unless the model path is missing, and the model
is read (`read_model`, `configure_tensors`). -/
def configure_instance (tvm : TvmRuntime) (self : tvm_subplugin)
    (prop : GstTensorFilterProperties) : Configured :=
  let parsed := parse_custom_prop self.device prop.custom_properties
  let self := { self with device := parsed.2 }
  if !parsed.1 then ⟨some "Failed to parse custom property.", self⟩
  else if !self.empty_model then
    if prop.model_files.head? = none ∨ prop.model_files.head? = some "" then
      ⟨some "Model path is not given.", self⟩
    else read_model tvm (cleanup self) prop
  else read_model tvm self prop

/-- The enum `model_info_ops` of `nnstreamer_plugin_api_filter.h`. -/
inductive model_info_ops where
  | GET_IN_OUT_INFO
  | SET_INPUT_INFO
  deriving DecidableEq, Repr

open model_info_ops

/-- The errno constant `ENOENT`. -/
abbrev ENOENT : Int := 2

/-- What `getModelInfo` leaves behind: the returned value, the object and the two
output parameters. -/
structure ModelInfo where
  ret : Int
  self : tvm_subplugin
  in_info : GstTensorsInfo
  out_info : GstTensorsInfo

/-- The method `tvm_subplugin::getModelInfo`. -/
def getModelInfo (self : tvm_subplugin) (ops : model_info_ops)
    (in_info out_info : GstTensorsInfo) : ModelInfo :=
  if ops = GET_IN_OUT_INFO then
    ⟨0, self, gst_tensors_info_copy in_info self.inputInfo,
      gst_tensors_info_copy out_info self.outputInfo⟩
  else ⟨-ENOENT, self, in_info, out_info⟩

/-! ## `tensor_query_common.h` -/

/-- The enum `TensorQueryProtocol`. -/
inductive TensorQueryProtocol where
  | _TENSOR_QUERY_PROTOCOL_TCP
  | _TENSOR_QUERY_PROTOCOL_UDP
  | _TENSOR_QUERY_PROTOCOL_MQTT
  | _TENSOR_QUERY_PROTOCOL_END
  deriving DecidableEq, Repr

open TensorQueryProtocol

/-- The integer value of each enumerator of `TensorQueryProtocol`; the terminator
follows the last explicit value. -/
def TensorQueryProtocol.toNat : TensorQueryProtocol → Nat
  | _TENSOR_QUERY_PROTOCOL_TCP => 0
  | _TENSOR_QUERY_PROTOCOL_UDP => 1
  | _TENSOR_QUERY_PROTOCOL_MQTT => 2
  | _TENSOR_QUERY_PROTOCOL_END => 3

/-- The enum `TensorQueryCommand`. -/
inductive TensorQueryCommand where
  | _TENSOR_QUERY_CMD_TRANSFER_START
  | _TENSOR_QUERY_CMD_TRANSFER_DATA
  | _TENSOR_QUERY_CMD_TRANSFER_END
  | _TENSOR_QUERY_CMD_TRANSFER_APPROVE
  | _TENSOR_QUERY_CMD_TRANSFER_DENY
  | _TENSOR_QUERY_CMD_END
  deriving DecidableEq, Repr

open TensorQueryCommand

/-- The integer value of each enumerator of `TensorQueryCommand`; the terminator
`_TENSOR_QUERY_CMD_END` follows the last explicit value. -/
def TensorQueryCommand.toNat : TensorQueryCommand → Nat
  | _TENSOR_QUERY_CMD_TRANSFER_START => 0
  | _TENSOR_QUERY_CMD_TRANSFER_DATA => 1
  | _TENSOR_QUERY_CMD_TRANSFER_END => 2
  | _TENSOR_QUERY_CMD_TRANSFER_APPROVE => 3
  | _TENSOR_QUERY_CMD_TRANSFER_DENY => 4
  | _TENSOR_QUERY_CMD_END => 5

/-- The struct `GstTensorsConfig` of `tensor_typedef.h`: the tensors and the frame
rate. -/
structure GstTensorsConfig where
  info : GstTensorsInfo
  rate_n : Int
  rate_d : Int

/-- The struct `TensorQueryDataInfo`. -/
structure TensorQueryDataInfo where
  config : GstTensorsConfig
  base_time : Int
  sent_time : Int
  duration : Nat
  dts : Nat
  pts : Nat

/-- The struct `TensorQueryData`: the bytes `data` points to and `size`. -/
structure TensorQueryData where
  data : List Nat
  size : Nat

/-- The anonymous union of `TensorQueryCommandData`, as a sum: `data_info` for
`_TENSOR_QUERY_CMD_TRANSFER_START`, `data` for `_TENSOR_QUERY_CMD_TRANSFER_DATA`,
and `unused` when neither member has been filled. -/
inductive TensorQueryPayload where
  | data_info (i : TensorQueryDataInfo)
  | data (d : TensorQueryData)
  | unused

/-- The struct `TensorQueryCommandData`. -/
structure TensorQueryCommandData where
  cmd : TensorQueryCommand
  protocol : TensorQueryProtocol
  payload : TensorQueryPayload

/-! ## The command codec (spec, sections 4.2 and 6)

The sources declare `nnstreamer_query_send` and `nnstreamer_query_receive` but do
not contain their bodies; the wire form below follows the specification.  Bytes are
natural numbers below 256. -/

/-- Modelled from the spec: the wire form of an unsigned field of `width` bytes (the
body of `nnstreamer_query_send` is not under the given sources).  The spec fixes the
order and the width of the fields but not the byte order; the least significant byte
goes first here. -/
def encode_uint : Nat → Nat → List Nat
  | 0, _ => []
  | width + 1, v => (v % 256) :: encode_uint width (v / 256)

/-- Modelled from the spec: reading an unsigned field of `width` bytes (the body of
`nnstreamer_query_receive` is not under the given sources); the value and the bytes
left, or nothing when the input is too short. -/
def decode_uint : Nat → List Nat → Option (Nat × List Nat)
  | 0, bytes => some (0, bytes)
  | _ + 1, [] => none
  | width + 1, b :: bytes =>
    match decode_uint width bytes with
    | none => none
    | some (v, rest) => some (b % 256 + 256 * v, rest)

/-- Modelled from the spec: the wire form of an `i64` field, in two's complement. -/
def encode_int64 (x : Int) : List Nat :=
  encode_uint 8 (x % (2 : Int) ^ 64).toNat

/-- Modelled from the spec: reading an `i64` field. -/
def decode_int64 (bytes : List Nat) : Option (Int × List Nat) :=
  match decode_uint 8 bytes with
  | none => none
  | some (v, rest) => some (if v < 2 ^ 63 then (v : Int) else (v : Int) - (2 : Int) ^ 64, rest)

/-- Modelled from the spec: the element type code, which is the value of the
enumerator in `tensor_typedef.h` (not under the given sources). -/
def tensor_type.toNat : tensor_type → Nat
  | _NNS_INT32 => 0
  | _NNS_UINT32 => 1
  | _NNS_INT16 => 2
  | _NNS_UINT16 => 3
  | _NNS_INT8 => 4
  | _NNS_UINT8 => 5
  | _NNS_FLOAT64 => 6
  | _NNS_FLOAT32 => 7
  | _NNS_INT64 => 8
  | _NNS_UINT64 => 9
  | _NNS_END => 10

/-- Modelled from the spec: the enumerator of `tensor_type` with a given code, none
when the code is outside the enum. -/
def tensor_type.ofNat? : Nat → Option tensor_type
  | 0 => some _NNS_INT32
  | 1 => some _NNS_UINT32
  | 2 => some _NNS_INT16
  | 3 => some _NNS_UINT16
  | 4 => some _NNS_INT8
  | 5 => some _NNS_UINT8
  | 6 => some _NNS_FLOAT64
  | 7 => some _NNS_FLOAT32
  | 8 => some _NNS_INT64
  | 9 => some _NNS_UINT64
  | 10 => some _NNS_END
  | _ => none

/-- Modelled from the spec: the command with a given wire code; the terminator and
anything above it is not a command (`Malformed`). -/
def TensorQueryCommand.ofNat? : Nat → Option TensorQueryCommand
  | 0 => some _TENSOR_QUERY_CMD_TRANSFER_START
  | 1 => some _TENSOR_QUERY_CMD_TRANSFER_DATA
  | 2 => some _TENSOR_QUERY_CMD_TRANSFER_END
  | 3 => some _TENSOR_QUERY_CMD_TRANSFER_APPROVE
  | 4 => some _TENSOR_QUERY_CMD_TRANSFER_DENY
  | _ => none

/-- Modelled from the spec: the transport kind with a given wire code; the
terminator and anything above it is not a transport kind (`Malformed`). -/
def TensorQueryProtocol.ofNat? : Nat → Option TensorQueryProtocol
  | 0 => some _TENSOR_QUERY_PROTOCOL_TCP
  | 1 => some _TENSOR_QUERY_PROTOCOL_UDP
  | 2 => some _TENSOR_QUERY_PROTOCOL_MQTT
  | _ => none

/-- Modelled from the spec: the wire form of a shape, one `u32` per dimension. -/
def encode_dims : List Nat → List Nat
  | [] => []
  | d :: ds => encode_uint 4 d ++ encode_dims ds

/-- Modelled from the spec: reading `rank` dimensions of `u32`. -/
def decode_dims : Nat → List Nat → Option (List Nat × List Nat)
  | 0, bytes => some ([], bytes)
  | rank + 1, bytes =>
    match decode_uint 4 bytes with
    | none => none
    | some (d, rest) =>
      match decode_dims rank rest with
      | none => none
      | some (ds, rest1) => some (d :: ds, rest1)

/-- Modelled from the spec: the wire form of one tensor,
`(shape[rank]: u32[], element_type: u8)`, with `rank = NNS_TENSOR_RANK_LIMIT`. -/
def encode_tensor (t : GstTensorInfo) : List Nat :=
  encode_dims (List.ofFn t.dimension) ++ encode_uint 1 t.type.toNat

/-- Modelled from the spec: reading one tensor; the name is not on the wire. -/
def decode_tensor (bytes : List Nat) : Option (GstTensorInfo × List Nat) :=
  match decode_dims NNS_TENSOR_RANK_LIMIT bytes with
  | none => none
  | some (ds, rest) =>
    match decode_uint 1 rest with
    | none => none
    | some (code, rest1) =>
      match tensor_type.ofNat? code with
      | none => none
      | some ty => some (⟨none, ty, fun k => ds.getD k.val 0⟩, rest1)

/-- Modelled from the spec: the wire form of the per-tensor part. -/
def encode_tensors : List GstTensorInfo → List Nat
  | [] => []
  | t :: ts => encode_tensor t ++ encode_tensors ts

/-- Modelled from the spec: reading `count` tensors. -/
def decode_tensors : Nat → List Nat → Option (List GstTensorInfo × List Nat)
  | 0, bytes => some ([], bytes)
  | count + 1, bytes =>
    match decode_tensor bytes with
    | none => none
    | some (t, rest) =>
      match decode_tensors count rest with
      | none => none
      | some (ts, rest1) => some (t :: ts, rest1)

/-- Modelled from the spec: the payload of `TRANSFER_START`,
`[num_tensors: u32][per-tensor][base_time: i64][sent_time: i64][duration: u64][dts: u64][pts: u64]`. -/
def encode_data_info (i : TensorQueryDataInfo) : List Nat :=
  encode_uint 4 i.config.info.num_tensors
    ++ encode_tensors ((List.range i.config.info.num_tensors).map (info_get i.config.info.info))
    ++ encode_int64 i.base_time ++ encode_int64 i.sent_time
    ++ encode_uint 8 i.duration ++ encode_uint 8 i.dts ++ encode_uint 8 i.pts

/-- Modelled from the spec: reading the payload of `TRANSFER_START`.  A tensor count
above the platform limit is rejected before any tensor is read.  Fields that are not
on the wire (tensor names, the frame rate, entries at and above the count) come out
reset. -/
def decode_data_info (bytes : List Nat) : Option (TensorQueryDataInfo × List Nat) :=
  match decode_uint 4 bytes with
  | none => none
  | some (n, r1) =>
    if n > NNS_TENSOR_SIZE_LIMIT then none
    else
      match decode_tensors n r1 with
      | none => none
      | some (ts, r2) =>
        match decode_int64 r2 with
        | none => none
        | some (base_time, r3) =>
          match decode_int64 r3 with
          | none => none
          | some (sent_time, r4) =>
            match decode_uint 8 r4 with
            | none => none
            | some (duration, r5) =>
              match decode_uint 8 r5 with
              | none => none
              | some (dts, r6) =>
                match decode_uint 8 r6 with
                | none => none
                | some (pts, r7) =>
                  some (⟨⟨⟨n, fun j => ts.getD j.val ⟨none, _NNS_END, fun _ => 0⟩⟩, 0, 0⟩,
                    base_time, sent_time, duration, dts, pts⟩, r7)

/-- Modelled from the spec: the envelope without the stream length prefix,
`[command_kind: u8][protocol_kind: u8][payload]`.  There is no wire form when a
terminator stands for the command or the protocol, or when the union does not hold
the member that the command asks for. -/
def encode_body (c : TensorQueryCommandData) : Option (List Nat) :=
  if c.protocol = _TENSOR_QUERY_PROTOCOL_END then none
  else
    match c.cmd, c.payload with
    | _TENSOR_QUERY_CMD_TRANSFER_START, .data_info i =>
      some ([c.cmd.toNat, c.protocol.toNat] ++ encode_data_info i)
    | _TENSOR_QUERY_CMD_TRANSFER_DATA, .data d =>
      if d.data.length = d.size then
        some ([c.cmd.toNat, c.protocol.toNat] ++ encode_uint 8 d.size ++ d.data)
      else none
    | _TENSOR_QUERY_CMD_TRANSFER_END, _ => some [c.cmd.toNat, c.protocol.toNat]
    | _TENSOR_QUERY_CMD_TRANSFER_APPROVE, _ => some [c.cmd.toNat, c.protocol.toNat]
    | _TENSOR_QUERY_CMD_TRANSFER_DENY, _ => some [c.cmd.toNat, c.protocol.toNat]
    | _, _ => none

/-- Modelled from the spec: encoding of a command envelope.  On the stream transport
(TCP) the envelope is prefixed with its length, taken here as a `u32`; on the
datagram and publish/subscribe transports the unit boundary is the frame. -/
def encode (c : TensorQueryCommandData) : Option (List Nat) :=
  match encode_body c with
  | none => none
  | some body =>
    if c.protocol = _TENSOR_QUERY_PROTOCOL_TCP then
      if body.length < 2 ^ 32 then some (encode_uint 4 body.length ++ body) else none
    else some body

/-- Modelled from the spec: decoding of an envelope without the length prefix.
`none` is the error `Malformed`. -/
def decode_body (bytes : List Nat) : Option TensorQueryCommandData :=
  match decode_uint 1 bytes with
  | none => none
  | some (c, r1) =>
    match TensorQueryCommand.ofNat? c with
    | none => none
    | some cmd =>
      match decode_uint 1 r1 with
      | none => none
      | some (p, r2) =>
        match TensorQueryProtocol.ofNat? p with
        | none => none
        | some protocol =>
          match cmd with
          | _TENSOR_QUERY_CMD_TRANSFER_START =>
            match decode_data_info r2 with
            | none => none
            | some (i, r3) => if r3 = [] then some ⟨cmd, protocol, .data_info i⟩ else none
          | _TENSOR_QUERY_CMD_TRANSFER_DATA =>
            match decode_uint 8 r2 with
            | none => none
            | some (size, r3) =>
              if r3.length = size then some ⟨cmd, protocol, .data ⟨r3, size⟩⟩ else none
          | _ => if r2 = [] then some ⟨cmd, protocol, .unused⟩ else none

/-- Modelled from the spec: decoding of what arrived on a connection of transport
kind `transport`.  `none` is the error `Malformed`. -/
def decode (transport : TensorQueryProtocol) (bytes : List Nat) : Option TensorQueryCommandData :=
  match transport with
  | _TENSOR_QUERY_PROTOCOL_END => none
  | _TENSOR_QUERY_PROTOCOL_TCP =>
    match decode_uint 4 bytes with
    | none => none
    | some (len, body) => if body.length = len then decode_body body else none
  | _ => decode_body bytes

/-! ## The negotiation state machine (spec, section 4.3) -/

/-- Modelled from the spec: the states of the negotiation state machine, which is
not under the given sources. -/
inductive NegotiationState where
  | IDLE
  | AWAITING_DECISION
  | STREAMING
  | CLOSED
  deriving DecidableEq, Repr

open NegotiationState

/-- Modelled from the spec: one transition of the negotiation state machine on an
observed command: the next state, and whether the command was accepted.  The listed
transitions are accepted; `TRANSFER_START` while `STREAMING` is a renegotiation;
`CLOSED` is terminal; any other command is a protocol violation, rejected with a
move to `CLOSED`. -/
def negotiation_step (s : NegotiationState) (c : TensorQueryCommand) : NegotiationState × Bool :=
  match s, c with
  | IDLE, _TENSOR_QUERY_CMD_TRANSFER_START => (AWAITING_DECISION, true)
  | AWAITING_DECISION, _TENSOR_QUERY_CMD_TRANSFER_APPROVE => (STREAMING, true)
  | AWAITING_DECISION, _TENSOR_QUERY_CMD_TRANSFER_DENY => (CLOSED, true)
  | STREAMING, _TENSOR_QUERY_CMD_TRANSFER_DATA => (STREAMING, true)
  | STREAMING, _TENSOR_QUERY_CMD_TRANSFER_END => (CLOSED, true)
  | STREAMING, _TENSOR_QUERY_CMD_TRANSFER_START => (AWAITING_DECISION, true)
  | _, _ => (CLOSED, false)

/-- Modelled from the spec: the state of a connection after the commands `cmds` were
observed on it in this order, starting in `IDLE`. -/
def negotiation_run (cmds : List TensorQueryCommand) : NegotiationState :=
  cmds.foldl (fun s c => (negotiation_step s c).1) IDLE

/-! ## Concrete objects used to instantiate the theorems -/

/-- An `info` array with every entry reset. -/
def info_zero : Fin NNS_TENSOR_SIZE_LIMIT → GstTensorInfo :=
  fun _ => ⟨none, _NNS_END, fun _ => 0⟩

/-- The `input_meta` of the `getModelInfo` test: one tensor `1:2:3:4` of
`_NNS_FLOAT32` in entry 0. -/
def test_input_meta : GstTensorsInfo :=
  ⟨0, info_set info_zero 0 ⟨none, _NNS_FLOAT32, ![1, 2, 3, 4]⟩⟩

/-- The `output_meta` of the `getModelInfo` test: one tensor `4:3:2:1` of `_NNS_INT8`
in entry 0. -/
def test_output_meta : GstTensorsInfo :=
  ⟨0, info_set info_zero 0 ⟨none, _NNS_INT8, ![4, 3, 2, 1]⟩⟩

/-- The properties of the `getModelInfo` test, with the model `tvm_add_one`. -/
def test_prop : GstTensorFilterProperties :=
  ⟨["tvm_add_one"], none, test_input_meta, test_output_meta⟩

/-- A runtime in which only the file `tvm_add_one` loads; its graph executor reports
one input and one output, as the test model does. -/
def test_tvm : TvmRuntime :=
  { LoadFromFile := fun path => if path = "tvm_add_one" then some 1 else none
    GetDefault := fun _ _ => some 2
    get_num_inputs := fun _ => 1
    get_num_outputs := fun _ => 1 }

/-- A freshly constructed instance. -/
def test_fresh : tvm_subplugin := tvm_subplugin.new info_zero

/-- The instance of the test after the successful `open`. -/
def test_opened : tvm_subplugin := (configure_instance test_tvm test_fresh test_prop).self

/-- Properties naming the model file `invalid_file_name` of the `openClose` test,
with a custom property that names an unknown device. -/
def test_prop_bad_device : GstTensorFilterProperties :=
  ⟨["invalid_file_name"], some "device:NPU", test_input_meta, test_output_meta⟩

/-- Properties whose model path is the empty string. -/
def test_prop_no_path : GstTensorFilterProperties :=
  ⟨[""], none, test_input_meta, test_output_meta⟩

/-- Properties naming the model file `invalid_file_name` of the `openClose` test. -/
def test_prop_invalid : GstTensorFilterProperties :=
  ⟨["invalid_file_name"], none, test_input_meta, test_output_meta⟩

/-! ## The rejection rule of the `custom` property, in the words of its description -/

/-- Whether an option has at least two colon-separated parts whose first part,
stripped, is `device` ignoring ASCII case. -/
def option_key_is_device (opt : List Char) : Bool :=
  match split_at ':' opt with
  | key :: _ :: _ => g_ascii_strcasecmp_eq (g_strstrip key) "device".toList
  | _ => false

/-- Whether an option has at least two colon-separated parts whose first part,
stripped, is `device` ignoring ASCII case and whose second part, stripped, is
neither `CPU` nor `GPU` ignoring ASCII case. -/
def option_rejected (opt : List Char) : Bool :=
  match split_at ':' opt with
  | key :: value :: _ =>
    g_ascii_strcasecmp_eq (g_strstrip key) "device".toList
      && !g_ascii_strcasecmp_eq (g_strstrip value) "CPU".toList
      && !g_ascii_strcasecmp_eq (g_strstrip value) "GPU".toList
  | _ => false

/-- Whether some comma-separated option of the string is rejected. -/
def custom_prop_rejected (s : String) : Bool :=
  (split_at ',' s.toList).any option_rejected

/-- Every field of the stream metadata is within the range of its C type: the
dimensions of the tensors below the count are `uint32_t`, `base_time` and `sent_time`
are `int64_t`, and `duration`, `dts` and `pts` are `uint64_t`. -/
def TensorQueryDataInfo.in_range (i : TensorQueryDataInfo) : Prop :=
  (∀ j : Fin NNS_TENSOR_SIZE_LIMIT, j.val < i.config.info.num_tensors →
      ∀ k, (i.config.info.info j).dimension k < 2 ^ 32)
    ∧ (-(2 : Int) ^ 63 ≤ i.base_time ∧ i.base_time < (2 : Int) ^ 63)
    ∧ (-(2 : Int) ^ 63 ≤ i.sent_time ∧ i.sent_time < (2 : Int) ^ 63)
    ∧ i.duration < 2 ^ 64 ∧ i.dts < 2 ^ 64 ∧ i.pts < 2 ^ 64

/-- The stream metadata of Scenario A of the spec: one `float32` tensor `1:1:1:1`,
with some time stamps. -/
def test_data_info : TensorQueryDataInfo :=
  ⟨⟨⟨1, info_set info_zero 0 ⟨none, _NNS_FLOAT32, ![1, 1, 1, 1]⟩⟩, 30, 1⟩, -5, 1000, 33, 7, 8⟩

/-! ## `tvm_subplugin::invoke` and the info lists it reads -/

/-- The method `tvm_subplugin::invoke`, as far as it reads the instance: the entries
`input_info_list[i]` (`i < inputInfo.num_tensors`) and `output_info_list[i]`
(`i < outputInfo.num_tensors`) whose `shape` and `dtype` it passes to
`NDArray::Empty`, in the order of the two loops.  An index outside a list is `none`;
the result is `none` when `assert (!empty_model)` fails. -/
def invoke (self : tvm_subplugin) :
    Option (List (Option tvm_data_info) × List (Option tvm_data_info)) :=
  if self.empty_model then none
  else
    some ((List.range self.inputInfo.num_tensors).map (fun i => self.input_info_list[i]?),
      (List.range self.outputInfo.num_tensors).map (fun i => self.output_info_list[i]?))

/-- The list entry that belongs to a tensor: its dimension array, each value widened
unchanged to 64 bits in the same order, and its converted type. -/
def tvm_data_info_of (info : GstTensorInfo) : tvm_data_info :=
  ⟨List.ofFn (fun k => (info.dimension k : Int)), (convert_nns_type info.type dtype_uninit).2⟩

/-- The invariant between a `GstTensorsInfo` and its info list: the list has exactly
`num_tensors` entries and entry `i` belongs to tensor `i`. -/
def info_list_matches (info : GstTensorsInfo) (l : List tvm_data_info) : Prop :=
  l.length = info.num_tensors
    ∧ ∀ i, i < info.num_tensors → l[i]? = some (tvm_data_info_of (info_get info.info i))

/-- Properties with the model `tvm_add_one` and the input `1:2:3:4` of `_NNS_FLOAT32`,
whose output tensor has no convertible type (`_NNS_END`). -/
def test_prop_bad_output : GstTensorFilterProperties :=
  ⟨["tvm_add_one"], none, test_input_meta, ⟨0, info_zero⟩⟩

/-- The properties of the `invoke` test: the model `tvm_add_one` with input and
output `1:1:1:1` of `_NNS_FLOAT32`. -/
def test_prop_invoke : GstTensorFilterProperties :=
  ⟨["tvm_add_one"], none,
    ⟨0, info_set info_zero 0 ⟨none, _NNS_FLOAT32, ![1, 1, 1, 1]⟩⟩,
    ⟨0, info_set info_zero 0 ⟨none, _NNS_FLOAT32, ![1, 1, 1, 1]⟩⟩⟩

/-- The fresh instance after a `configure_instance` that throws in the second
`configure_meta` (the output type does not convert), followed by `cleanup`. -/
def test_after_failed_meta : tvm_subplugin :=
  cleanup (configure_instance test_tvm test_fresh test_prop_bad_output).self

/-- The instance `test_after_failed_meta` after the successful `configure_instance`
of the `invoke` test. -/
def test_reopened : tvm_subplugin :=
  (configure_instance test_tvm test_after_failed_meta test_prop_invoke).self

/-! # Theorems -/

/-! ## Helper lemmas on the `info` arrays -/

theorem info_get_lt (a : Fin NNS_TENSOR_SIZE_LIMIT → GstTensorInfo) (i : Nat)
    (h : i < NNS_TENSOR_SIZE_LIMIT) : info_get a i = a ⟨i, h⟩ := by
  simp [info_get, h]

/-- The copy loop shared by `set_tensor_info` and `gst_tensors_info_copy`: after `n`
rounds, every entry below `n` holds the copy of the source entry, the others are
untouched. -/
theorem copy_loop_spec (src : Fin NNS_TENSOR_SIZE_LIMIT → GstTensorInfo) (n : Nat)
    (a : Fin NNS_TENSOR_SIZE_LIMIT → GstTensorInfo) (j : Fin NNS_TENSOR_SIZE_LIMIT) :
    (List.range n).foldl
        (fun a i => info_set a i (gst_tensor_info_copy (info_get a i) (info_get src i))) a j
      = if j.val < n then gst_tensor_info_copy (a j) (src j) else a j := by
  induction n with
  | zero => simp
  | succ n ih =>
    rw [List.range_succ, List.foldl_append]
    simp only [List.foldl_cons, List.foldl_nil, info_set]
    by_cases hj : j.val = n
    · have hlt : n < NNS_TENSOR_SIZE_LIMIT := hj ▸ j.isLt
      have hjn : j = ⟨n, hlt⟩ := Fin.ext hj
      simp [hj, info_get_lt _ _ hlt, hjn, gst_tensor_info_copy]
    · rw [if_neg hj, ih]
      have h1 : j.val < n + 1 ↔ j.val < n := by omega
      simp only [h1]

/-- The loop of `set_tensor_info` computes the copy loop in its first component and
the list of the indices below `n` in its second. -/
theorem set_loop_spec (src : Fin NNS_TENSOR_SIZE_LIMIT → GstTensorInfo) (n : Nat)
    (a : Fin NNS_TENSOR_SIZE_LIMIT → GstTensorInfo) (l : List Nat) :
    (List.range n).foldl
        (fun (acc : (Fin NNS_TENSOR_SIZE_LIMIT → GstTensorInfo) × List Nat) i =>
          (info_set acc.1 i (gst_tensor_info_copy (info_get acc.1 i) (info_get src i)),
            acc.2 ++ [i])) (a, l)
      = ((List.range n).foldl
          (fun a i => info_set a i (gst_tensor_info_copy (info_get a i) (info_get src i))) a,
         l ++ List.range n) := by
  induction n with
  | zero => simp
  | succ n ih =>
    rw [List.range_succ, List.foldl_append, List.foldl_append, ih]
    simp

theorem set_tensor_info_ret (dest src : GstTensorsInfo) (n : Nat) :
    (set_tensor_info dest src n).ret = decide (n ≤ NNS_TENSOR_SIZE_LIMIT) := by
  unfold set_tensor_info
  by_cases h : n > NNS_TENSOR_SIZE_LIMIT
  · simp [h]
  · simp [h]; omega

theorem set_tensor_info_fail (dest src : GstTensorsInfo) (n : Nat)
    (h : n > NNS_TENSOR_SIZE_LIMIT) :
    set_tensor_info dest src n = ⟨false, dest, []⟩ := by
  simp [set_tensor_info, h]

theorem set_tensor_info_ok (dest src : GstTensorsInfo) (n : Nat)
    (h : n ≤ NNS_TENSOR_SIZE_LIMIT) :
    (set_tensor_info dest src n).dest_info.num_tensors = n
      ∧ (set_tensor_info dest src n).accessed = List.range n
      ∧ ∀ j : Fin NNS_TENSOR_SIZE_LIMIT,
          (set_tensor_info dest src n).dest_info.info j
            = if j.val < n then gst_tensor_info_copy (dest.info j) (src.info j)
              else dest.info j := by
  have h1 : ¬ n > NNS_TENSOR_SIZE_LIMIT := by omega
  simp only [set_tensor_info, if_neg h1, set_loop_spec, List.nil_append, true_and]
  intro j
  exact copy_loop_spec src.info n dest.info j

/-! ## Theorems on `set_tensor_info`, `cleanup`, `getModelInfo`, `convert_nns_type` -/

/-- C2. `set_tensor_info` returns false exactly when `num_tensors` exceeds
`NNS_TENSOR_SIZE_LIMIT` (16); it then leaves `dest_info` as it was and touches no
entry of either `info` array; when it returns true every index it touches is below
`NNS_TENSOR_SIZE_LIMIT`. -/
theorem set_tensor_info_limit (dest_info src_info : GstTensorsInfo) (num_tensors : Nat) :
    ((set_tensor_info dest_info src_info num_tensors).ret = false ↔ num_tensors > 16)
      ∧ (num_tensors > NNS_TENSOR_SIZE_LIMIT →
          (set_tensor_info dest_info src_info num_tensors).dest_info = dest_info
            ∧ (set_tensor_info dest_info src_info num_tensors).accessed = [])
      ∧ ((set_tensor_info dest_info src_info num_tensors).ret = true →
          ∀ i ∈ (set_tensor_info dest_info src_info num_tensors).accessed,
            i < NNS_TENSOR_SIZE_LIMIT) := by
  refine ⟨?_, ?_, ?_⟩
  · rw [set_tensor_info_ret]; simp
  · intro h
    rw [set_tensor_info_fail _ _ _ h]
    exact ⟨rfl, rfl⟩
  · rw [set_tensor_info_ret]
    intro h i hi
    have hle : num_tensors ≤ NNS_TENSOR_SIZE_LIMIT := by simpa using h
    rw [(set_tensor_info_ok dest_info src_info num_tensors hle).2.1] at hi
    have := List.mem_range.mp hi
    omega

/-- Witness of C2: seventeen tensors are refused and nothing is touched; two tensors
are accepted and the indices 0 and 1 are touched. -/
theorem set_tensor_info_limit_witness :
    (set_tensor_info test_input_meta test_output_meta 17).ret = false
      ∧ (set_tensor_info test_input_meta test_output_meta 17).accessed = []
      ∧ (set_tensor_info test_input_meta test_output_meta 2).ret = true
      ∧ ∀ i ∈ (set_tensor_info test_input_meta test_output_meta 2).accessed, i < 16 :=
  ⟨(set_tensor_info_limit test_input_meta test_output_meta 17).1.mpr (by decide),
   ((set_tensor_info_limit test_input_meta test_output_meta 17).2.1 (by decide)).2,
   by rfl,
   (set_tensor_info_limit test_input_meta test_output_meta 2).2.2 (by rfl)⟩

/-- C4. `cleanup` is idempotent on every instance state; on a freshly constructed
instance it changes no field; and after `cleanup` of a configured instance
`empty_model` is true, `model_path` is null, both tensor counts are 0 and both info
lists are empty. -/
theorem cleanup_idempotent (s : tvm_subplugin)
    (info0 : Fin NNS_TENSOR_SIZE_LIMIT → GstTensorInfo) :
    cleanup (cleanup s) = cleanup s
      ∧ cleanup (tvm_subplugin.new info0) = tvm_subplugin.new info0
      ∧ (s.empty_model = false →
          (cleanup s).empty_model = true ∧ (cleanup s).model_path = none
            ∧ (cleanup s).inputInfo.num_tensors = 0 ∧ (cleanup s).outputInfo.num_tensors = 0
            ∧ (cleanup s).input_info_list = [] ∧ (cleanup s).output_info_list = []) := by
  refine ⟨?_, rfl, ?_⟩
  · cases h : s.empty_model <;> simp [cleanup, h]
  · intro h
    simp [cleanup, h]

/-- Witness of C4: the instance opened by the test is configured, and `cleanup`
empties it. -/
theorem cleanup_idempotent_witness :
    test_opened.empty_model = false
      ∧ (cleanup test_opened).empty_model = true ∧ (cleanup test_opened).model_path = none
      ∧ (cleanup test_opened).inputInfo.num_tensors = 0
      ∧ (cleanup test_opened).outputInfo.num_tensors = 0
      ∧ (cleanup test_opened).input_info_list = []
      ∧ (cleanup test_opened).output_info_list = [] :=
  ⟨by rfl, (cleanup_idempotent test_opened info_zero).2.2 (by rfl)⟩

/-- C5. `getModelInfo` returns 0 exactly when `ops` is `GET_IN_OUT_INFO`; for any
other `ops` (such as `SET_INPUT_INFO`) it returns the non-zero value `-ENOENT` and
leaves `in_info`, `out_info` and the instance as they were. -/
theorem getModelInfo_ops (self : tvm_subplugin) (ops : model_info_ops)
    (in_info out_info : GstTensorsInfo) :
    ((getModelInfo self ops in_info out_info).ret = 0 ↔ ops = GET_IN_OUT_INFO)
      ∧ (ops ≠ GET_IN_OUT_INFO →
          (getModelInfo self ops in_info out_info).ret = -ENOENT
            ∧ (getModelInfo self ops in_info out_info).ret ≠ 0
            ∧ (getModelInfo self ops in_info out_info).in_info = in_info
            ∧ (getModelInfo self ops in_info out_info).out_info = out_info
            ∧ (getModelInfo self ops in_info out_info).self = self) := by
  cases ops <;> simp [getModelInfo]

/-- Witness of C5: `SET_INPUT_INFO` on the opened instance of the test. -/
theorem getModelInfo_ops_witness :
    (getModelInfo test_opened SET_INPUT_INFO test_input_meta test_output_meta).ret = -ENOENT
      ∧ (getModelInfo test_opened SET_INPUT_INFO test_input_meta test_output_meta).ret ≠ 0
      ∧ (getModelInfo test_opened SET_INPUT_INFO test_input_meta test_output_meta).in_info
          = test_input_meta
      ∧ (getModelInfo test_opened SET_INPUT_INFO test_input_meta test_output_meta).out_info
          = test_output_meta
      ∧ (getModelInfo test_opened SET_INPUT_INFO test_input_meta test_output_meta).self
          = test_opened :=
  (getModelInfo_ops test_opened SET_INPUT_INFO test_input_meta test_output_meta).2 (by decide)

/-- C10, at the failing inputs. `convert_nns_type` gives `_NNS_INT32` the DLPack type
of `_NNS_FLOAT32` (code `kDLFloat`, 32 bits), gives `_NNS_INT64` and `_NNS_UINT64`
that of `_NNS_FLOAT64`, and gives the unsigned `_NNS_UINT8` the signed code `kDLInt`
of `_NNS_INT8`. -/
theorem convert_nns_type_wrong_code :
    convert_nns_type _NNS_INT32 dtype_uninit = (true, ⟨kDLFloat, 32, 1⟩)
      ∧ convert_nns_type _NNS_INT32 dtype_uninit = convert_nns_type _NNS_FLOAT32 dtype_uninit
      ∧ convert_nns_type _NNS_UINT32 dtype_uninit = convert_nns_type _NNS_FLOAT32 dtype_uninit
      ∧ convert_nns_type _NNS_INT64 dtype_uninit = convert_nns_type _NNS_FLOAT64 dtype_uninit
      ∧ convert_nns_type _NNS_UINT64 dtype_uninit = convert_nns_type _NNS_FLOAT64 dtype_uninit
      ∧ convert_nns_type _NNS_UINT8 dtype_uninit = (true, ⟨kDLInt, 8, 1⟩)
      ∧ convert_nns_type _NNS_UINT8 dtype_uninit = convert_nns_type _NNS_INT8 dtype_uninit
      ∧ convert_nns_type _NNS_UINT16 dtype_uninit = convert_nns_type _NNS_INT16 dtype_uninit := by
  decide

/-! ## Theorems on the command enum of `tensor_query_common.h` -/

/-- C9. `TensorQueryCommand` gives `TRANSFER_START`, `TRANSFER_DATA`, `TRANSFER_END`,
`TRANSFER_APPROVE` and `TRANSFER_DENY` the codes 0, 1, 2, 3 and 4; the codes are
pairwise distinct; the terminator `_TENSOR_QUERY_CMD_END` is 5; every command code is
below the terminator and below 256; and every value below the terminator is the code
of one of the five commands. -/
theorem TensorQueryCommand_codes :
    _TENSOR_QUERY_CMD_TRANSFER_START.toNat = 0
      ∧ _TENSOR_QUERY_CMD_TRANSFER_DATA.toNat = 1
      ∧ _TENSOR_QUERY_CMD_TRANSFER_END.toNat = 2
      ∧ _TENSOR_QUERY_CMD_TRANSFER_APPROVE.toNat = 3
      ∧ _TENSOR_QUERY_CMD_TRANSFER_DENY.toNat = 4
      ∧ _TENSOR_QUERY_CMD_END.toNat = 5
      ∧ Function.Injective TensorQueryCommand.toNat
      ∧ (∀ c : TensorQueryCommand, c ≠ _TENSOR_QUERY_CMD_END →
          c.toNat < _TENSOR_QUERY_CMD_END.toNat ∧ c.toNat < 256)
      ∧ (∀ n : Nat, n < _TENSOR_QUERY_CMD_END.toNat →
          ∃ c : TensorQueryCommand, c ≠ _TENSOR_QUERY_CMD_END ∧ c.toNat = n
            ∧ (c = _TENSOR_QUERY_CMD_TRANSFER_START ∨ c = _TENSOR_QUERY_CMD_TRANSFER_DATA
              ∨ c = _TENSOR_QUERY_CMD_TRANSFER_END ∨ c = _TENSOR_QUERY_CMD_TRANSFER_APPROVE
              ∨ c = _TENSOR_QUERY_CMD_TRANSFER_DENY)) := by
  refine ⟨rfl, rfl, rfl, rfl, rfl, rfl, ?_, ?_, ?_⟩
  · intro a b h
    cases a <;> cases b <;> simp [TensorQueryCommand.toNat] at h ⊢
  · intro c hc
    cases c <;> simp [TensorQueryCommand.toNat] at hc ⊢
  · intro n hn
    have h5 : n < 5 := hn
    interval_cases n
    · exact ⟨_TENSOR_QUERY_CMD_TRANSFER_START, by decide, rfl, by simp⟩
    · exact ⟨_TENSOR_QUERY_CMD_TRANSFER_DATA, by decide, rfl, by simp⟩
    · exact ⟨_TENSOR_QUERY_CMD_TRANSFER_END, by decide, rfl, by simp⟩
    · exact ⟨_TENSOR_QUERY_CMD_TRANSFER_APPROVE, by decide, rfl, by simp⟩
    · exact ⟨_TENSOR_QUERY_CMD_TRANSFER_DENY, by decide, rfl, by simp⟩

/-! ## Helper lemmas on `configure_instance` -/

theorem convert_nns_type_ok (t : tensor_type) (d : DLDataType) :
    (convert_nns_type t d).1 = true ↔ t ≠ _NNS_END := by
  cases t <;> simp [convert_nns_type]

/-- The loop of `configure_meta` runs to the end when every entry it reads has a
convertible type. -/
theorem configure_meta_loop_ok (tensor_meta : GstTensorsInfo) (count : Nat) :
    ∀ (i : Nat) (l : List tvm_data_info),
      (∀ k, k < count → (info_get tensor_meta.info (i + k)).type ≠ _NNS_END) →
      (configure_meta_loop tensor_meta count i l).1 = true := by
  induction count with
  | zero => intro i l _; rfl
  | succ n ih =>
    intro i l h
    have h0 := h 0 (by omega)
    rw [Nat.add_zero] at h0
    have hc := (convert_nns_type_ok (info_get tensor_meta.info i).type dtype_uninit).mpr h0
    unfold configure_meta_loop
    simp only
    split
    · rename_i heq
      rw [heq] at hc
      simp at hc
    · apply ih
      intro k hk
      have := h (k + 1) (by omega)
      rwa [show i + 1 + k = i + (k + 1) by omega]

/-- What `configure_tensors` has done when it did not throw. -/
theorem configure_tensors_ok_inv (tvm : TvmRuntime) (self : tvm_subplugin)
    (prop : GstTensorFilterProperties) (g : Nat)
    (h : (configure_tensors tvm self prop g).thrown = none) :
    int_to_unsigned (tvm.get_num_inputs g) ≤ NNS_TENSOR_SIZE_LIMIT
      ∧ int_to_unsigned (tvm.get_num_outputs g) ≤ NNS_TENSOR_SIZE_LIMIT
      ∧ (configure_tensors tvm self prop g).self.empty_model = false
      ∧ (configure_tensors tvm self prop g).self.gmod = self.gmod
      ∧ (configure_tensors tvm self prop g).self.inputInfo
          = (set_tensor_info self.inputInfo prop.input_meta
              (int_to_unsigned (tvm.get_num_inputs g))).dest_info
      ∧ (configure_tensors tvm self prop g).self.outputInfo
          = (set_tensor_info self.outputInfo prop.output_meta
              (int_to_unsigned (tvm.get_num_outputs g))).dest_info := by
  have e1 := set_tensor_info_ret self.inputInfo prop.input_meta
    (int_to_unsigned (tvm.get_num_inputs g))
  have e2 := set_tensor_info_ret self.outputInfo prop.output_meta
    (int_to_unsigned (tvm.get_num_outputs g))
  unfold configure_tensors at h ⊢
  simp only at h ⊢
  generalize set_tensor_info self.inputInfo prop.input_meta
    (int_to_unsigned (tvm.get_num_inputs g)) = r_in at e1 h ⊢
  generalize set_tensor_info self.outputInfo prop.output_meta
    (int_to_unsigned (tvm.get_num_outputs g)) = r_out at e2 h ⊢
  generalize configure_meta r_in.dest_info self.input_info_list = m_in at h ⊢
  generalize configure_meta r_out.dest_info self.output_info_list = m_out at h ⊢
  cases h1 : r_in.ret <;> cases h2 : r_out.ret <;> cases h3 : m_in.1 <;> cases h4 : m_out.1 <;>
    simp [h1, h2, h3, h4] at h ⊢
  rw [h1] at e1
  rw [h2] at e2
  simp at e1 e2
  exact ⟨e1, e2⟩

/-- The method `configure_meta` succeeds on what `set_tensor_info` wrote when the
first `n` source entries have convertible types. -/
theorem configure_meta_after_set (dest src : GstTensorsInfo) (n : Nat)
    (l : List tvm_data_info) (hn : n ≤ NNS_TENSOR_SIZE_LIMIT)
    (ht : ∀ j : Fin NNS_TENSOR_SIZE_LIMIT, j.val < n → (src.info j).type ≠ _NNS_END) :
    (configure_meta (set_tensor_info dest src n).dest_info l).1 = true := by
  obtain ⟨hnum, -, hinfo⟩ := set_tensor_info_ok dest src n hn
  unfold configure_meta
  rw [hnum]
  apply configure_meta_loop_ok
  intro k hk
  have hk16 : 0 + k < NNS_TENSOR_SIZE_LIMIT := by omega
  rw [info_get_lt _ _ hk16, hinfo]
  have hk0 : 0 + k < n := by omega
  simp only [hk0, if_true, gst_tensor_info_copy]
  exact ht ⟨0 + k, hk16⟩ hk0

/-- When both tensor counts are within the limit and the types of the tensors are
convertible, `configure_tensors` does not throw. -/
theorem configure_tensors_ok (tvm : TvmRuntime) (self : tvm_subplugin)
    (prop : GstTensorFilterProperties) (g : Nat)
    (h1 : int_to_unsigned (tvm.get_num_inputs g) ≤ NNS_TENSOR_SIZE_LIMIT)
    (h2 : int_to_unsigned (tvm.get_num_outputs g) ≤ NNS_TENSOR_SIZE_LIMIT)
    (h3 : ∀ j : Fin NNS_TENSOR_SIZE_LIMIT, j.val < int_to_unsigned (tvm.get_num_inputs g) →
      (prop.input_meta.info j).type ≠ _NNS_END)
    (h4 : ∀ j : Fin NNS_TENSOR_SIZE_LIMIT, j.val < int_to_unsigned (tvm.get_num_outputs g) →
      (prop.output_meta.info j).type ≠ _NNS_END) :
    (configure_tensors tvm self prop g).thrown = none := by
  have e1 := set_tensor_info_ret self.inputInfo prop.input_meta
    (int_to_unsigned (tvm.get_num_inputs g))
  have e2 := set_tensor_info_ret self.outputInfo prop.output_meta
    (int_to_unsigned (tvm.get_num_outputs g))
  have e3 := configure_meta_after_set self.inputInfo prop.input_meta _ self.input_info_list h1 h3
  have e4 := configure_meta_after_set self.outputInfo prop.output_meta _
    self.output_info_list h2 h4
  simp only [h1, h2, decide_True] at e1 e2
  unfold configure_tensors
  simp [e1, e2, e3, e4]

/-- When the model file does not load, `read_model` throws and only `model_path` has
changed. -/
theorem read_model_unloadable (tvm : TvmRuntime) (self : tvm_subplugin)
    (prop : GstTensorFilterProperties)
    (h : ∀ p, prop.model_files.head? = some p → tvm.LoadFromFile p = none) :
    (read_model tvm self prop).thrown ≠ none
      ∧ (read_model tvm self prop).self = { self with model_path := prop.model_files.head? } := by
  unfold read_model
  cases hp : prop.model_files.head? with
  | none => simp
  | some p => simp [h p hp]

/-- When the model loads, `read_model` goes on to `configure_tensors`. -/
theorem read_model_loadable (tvm : TvmRuntime) (self : tvm_subplugin)
    (prop : GstTensorFilterProperties) (p : String) (f g : Nat)
    (hp : prop.model_files.head? = some p) (hf : tvm.LoadFromFile p = some f)
    (hg : tvm.GetDefault f self.device = some g) :
    read_model tvm self prop
      = configure_tensors tvm
          { self with model_path := some p, mod_factory := some f, gmod := some g } prop g := by
  unfold read_model
  simp [hp, hf, hg]

/-- What `read_model` has done when it did not throw. -/
theorem read_model_ok_inv (tvm : TvmRuntime) (self : tvm_subplugin)
    (prop : GstTensorFilterProperties) (h : (read_model tvm self prop).thrown = none) :
    ∃ (p : String) (f g : Nat), prop.model_files.head? = some p ∧ tvm.LoadFromFile p = some f
      ∧ tvm.GetDefault f self.device = some g
      ∧ read_model tvm self prop
        = configure_tensors tvm
            { self with model_path := some p, mod_factory := some f, gmod := some g } prop g := by
  cases hp : prop.model_files.head? with
  | none => simp [read_model, hp] at h
  | some p =>
    cases hf : tvm.LoadFromFile p with
    | none => simp [read_model, hp, hf] at h
    | some f =>
      cases hg : tvm.GetDefault f self.device with
      | none => simp [read_model, hp, hf, hg] at h
      | some g => exact ⟨p, f, g, rfl, hf, hg, read_model_loadable tvm self prop p f g hp hf hg⟩

/-- What `configure_instance` has done when it did not throw: the custom property
parsed, the model was read from the instance `s0` (the instance itself, or what
`cleanup` left of it), and the tensors were configured. -/
theorem configure_instance_ok_inv (tvm : TvmRuntime) (self : tvm_subplugin)
    (prop : GstTensorFilterProperties)
    (h : (configure_instance tvm self prop).thrown = none) :
    (parse_custom_prop self.device prop.custom_properties).1 = true
      ∧ ∃ s0 : tvm_subplugin,
        (s0 = { self with device := (parse_custom_prop self.device prop.custom_properties).2 }
          ∨ s0 = cleanup
              { self with device := (parse_custom_prop self.device prop.custom_properties).2 })
        ∧ configure_instance tvm self prop = read_model tvm s0 prop := by
  unfold configure_instance at h ⊢
  simp only at h ⊢
  cases hparse : (parse_custom_prop self.device prop.custom_properties).1
  · simp [hparse] at h
  · simp only [hparse, Bool.not_true, Bool.false_eq_true, if_false, true_and] at h ⊢
    cases he : self.empty_model
    · simp only [he, Bool.not_false, if_true] at h ⊢
      split at h
      · simp at h
      · rename_i hpath
        rw [if_neg hpath]
        exact ⟨_, Or.inr rfl, rfl⟩
    · simp only [he, Bool.not_true, Bool.false_eq_true, if_false]
      exact ⟨_, Or.inl rfl, rfl⟩

theorem int_to_unsigned_natCast (n : Nat) (h : n < 2 ^ 32) : int_to_unsigned (n : Int) = n := by
  unfold int_to_unsigned
  have h1 : ((n : Int) % (2 : Int) ^ 32) = (n : Int) := by
    apply Int.emod_eq_of_lt (by omega)
    have : ((2 : Int) ^ 32) = ((2 ^ 32 : Nat) : Int) := by norm_num
    rw [this]
    exact_mod_cast h
  rw [h1]
  simp

/-- The entries of the result of `gst_tensors_info_copy` below the tensor count of
`src` are the copies of those of `src`. -/
theorem gst_tensors_info_copy_spec (dest src : GstTensorsInfo) :
    (gst_tensors_info_copy dest src).num_tensors = src.num_tensors
      ∧ ∀ j : Fin NNS_TENSOR_SIZE_LIMIT, j.val < src.num_tensors →
          (gst_tensors_info_copy dest src).info j
            = gst_tensor_info_copy (dest.info j) (src.info j) := by
  refine ⟨rfl, ?_⟩
  intro j hj
  unfold gst_tensors_info_copy
  simp only
  rw [copy_loop_spec, if_pos hj]
  rfl

/-- The instance after a `configure_instance` that did not throw: the graph module
`g`, both counts within the limit, and `inputInfo`, `outputInfo` as `set_tensor_info`
wrote them. -/
theorem configure_instance_ok_info (tvm : TvmRuntime) (self : tvm_subplugin)
    (prop : GstTensorFilterProperties)
    (h : (configure_instance tvm self prop).thrown = none) :
    ∃ (g : Nat) (d_in d_out : GstTensorsInfo),
      (configure_instance tvm self prop).self.gmod = some g
      ∧ (configure_instance tvm self prop).self.empty_model = false
      ∧ int_to_unsigned (tvm.get_num_inputs g) ≤ NNS_TENSOR_SIZE_LIMIT
      ∧ int_to_unsigned (tvm.get_num_outputs g) ≤ NNS_TENSOR_SIZE_LIMIT
      ∧ (configure_instance tvm self prop).self.inputInfo
          = (set_tensor_info d_in prop.input_meta
              (int_to_unsigned (tvm.get_num_inputs g))).dest_info
      ∧ (configure_instance tvm self prop).self.outputInfo
          = (set_tensor_info d_out prop.output_meta
              (int_to_unsigned (tvm.get_num_outputs g))).dest_info := by
  obtain ⟨-, s0, -, hs0⟩ := configure_instance_ok_inv tvm self prop h
  rw [hs0] at h ⊢
  obtain ⟨p, f, g, -, -, -, hrm⟩ := read_model_ok_inv tvm s0 prop h
  rw [hrm] at h ⊢
  obtain ⟨h1, h2, h3, h4, h5, h6⟩ := configure_tensors_ok_inv tvm _ prop g h
  exact ⟨g, _, _, h4, h3, h1, h2, h5, h6⟩

/-! ## Theorems on `configure_instance` and `getModelInfo` -/

/-- C1. After a `configure_instance` that did not throw, on a model that reports
`n_in` inputs and `n_out` outputs, both at most `NNS_TENSOR_SIZE_LIMIT`,
`getModelInfo` with `GET_IN_OUT_INFO` returns 0 and yields `n_in` input tensors and
`n_out` output tensors whose dimension arrays and element types are those of
`prop.input_meta.info[i]` (`i < n_in`) and `prop.output_meta.info[j]` (`j < n_out`). -/
theorem getModelInfo_after_configure (tvm : TvmRuntime) (self : tvm_subplugin)
    (prop : GstTensorFilterProperties) (in_info out_info : GstTensorsInfo)
    (g n_in n_out : Nat)
    (hok : (configure_instance tvm self prop).thrown = none)
    (hg : (configure_instance tvm self prop).self.gmod = some g)
    (hin : tvm.get_num_inputs g = (n_in : Int))
    (hout : tvm.get_num_outputs g = (n_out : Int))
    (hin_le : n_in ≤ NNS_TENSOR_SIZE_LIMIT) (hout_le : n_out ≤ NNS_TENSOR_SIZE_LIMIT) :
    (getModelInfo (configure_instance tvm self prop).self GET_IN_OUT_INFO in_info out_info).ret
        = 0
      ∧ (getModelInfo (configure_instance tvm self prop).self GET_IN_OUT_INFO in_info
          out_info).in_info.num_tensors = n_in
      ∧ (getModelInfo (configure_instance tvm self prop).self GET_IN_OUT_INFO in_info
          out_info).out_info.num_tensors = n_out
      ∧ (∀ i : Fin NNS_TENSOR_SIZE_LIMIT, i.val < n_in →
          ((getModelInfo (configure_instance tvm self prop).self GET_IN_OUT_INFO in_info
              out_info).in_info.info i).dimension = (prop.input_meta.info i).dimension
          ∧ ((getModelInfo (configure_instance tvm self prop).self GET_IN_OUT_INFO in_info
              out_info).in_info.info i).type = (prop.input_meta.info i).type)
      ∧ (∀ j : Fin NNS_TENSOR_SIZE_LIMIT, j.val < n_out →
          ((getModelInfo (configure_instance tvm self prop).self GET_IN_OUT_INFO in_info
              out_info).out_info.info j).dimension = (prop.output_meta.info j).dimension
          ∧ ((getModelInfo (configure_instance tvm self prop).self GET_IN_OUT_INFO in_info
              out_info).out_info.info j).type = (prop.output_meta.info j).type) := by
  obtain ⟨g1, d_in, d_out, hg1, -, -, -, hI, hO⟩ := configure_instance_ok_info tvm self prop hok
  have hgg : g1 = g := by
    rw [hg1] at hg
    exact Option.some.inj hg
  subst hgg
  have e_in : int_to_unsigned (tvm.get_num_inputs g1) = n_in := by
    rw [hin]; exact int_to_unsigned_natCast n_in (by have : n_in ≤ 16 := hin_le; omega)
  have e_out : int_to_unsigned (tvm.get_num_outputs g1) = n_out := by
    rw [hout]; exact int_to_unsigned_natCast n_out (by have : n_out ≤ 16 := hout_le; omega)
  rw [e_in] at hI
  rw [e_out] at hO
  obtain ⟨hIn, -, hIi⟩ := set_tensor_info_ok d_in prop.input_meta n_in hin_le
  obtain ⟨hOn, -, hOi⟩ := set_tensor_info_ok d_out prop.output_meta n_out hout_le
  have hci := gst_tensors_info_copy_spec in_info (configure_instance tvm self prop).self.inputInfo
  have hco := gst_tensors_info_copy_spec out_info
    (configure_instance tvm self prop).self.outputInfo
  simp only [getModelInfo, if_true]
  refine ⟨trivial, ?_, ?_, ?_, ?_⟩
  · rw [hci.1, hI, hIn]
  · rw [hco.1, hO, hOn]
  · intro i hi
    rw [hci.2 i (by rw [hI, hIn]; exact hi), hI, hIi i, if_pos hi]
    exact ⟨rfl, rfl⟩
  · intro j hj
    rw [hco.2 j (by rw [hO, hOn]; exact hj), hO, hOi j, if_pos hj]
    exact ⟨rfl, rfl⟩

/-- Witness of C1: the `getModelInfo` test.  The model `tvm_add_one` reports one input
and one output; after `open`, `getModelInfo` returns 0 with one input tensor `1:2:3:4`
of `_NNS_FLOAT32` and one output tensor `4:3:2:1` of `_NNS_INT8`. -/
theorem getModelInfo_after_configure_witness :
    (configure_instance test_tvm test_fresh test_prop).thrown = none
      ∧ (getModelInfo test_opened GET_IN_OUT_INFO test_output_meta test_input_meta).ret = 0
      ∧ (getModelInfo test_opened GET_IN_OUT_INFO test_output_meta
          test_input_meta).in_info.num_tensors = 1
      ∧ (getModelInfo test_opened GET_IN_OUT_INFO test_output_meta
          test_input_meta).out_info.num_tensors = 1
      ∧ ((getModelInfo test_opened GET_IN_OUT_INFO test_output_meta
          test_input_meta).in_info.info 0).dimension = ![1, 2, 3, 4]
      ∧ ((getModelInfo test_opened GET_IN_OUT_INFO test_output_meta
          test_input_meta).in_info.info 0).type = _NNS_FLOAT32
      ∧ ((getModelInfo test_opened GET_IN_OUT_INFO test_output_meta
          test_input_meta).out_info.info 0).dimension = ![4, 3, 2, 1]
      ∧ ((getModelInfo test_opened GET_IN_OUT_INFO test_output_meta
          test_input_meta).out_info.info 0).type = _NNS_INT8 :=
  have h := getModelInfo_after_configure test_tvm test_fresh test_prop test_output_meta
    test_input_meta 2 1 1 (by rfl) (by rfl) (by rfl) (by rfl) (by decide) (by decide)
  ⟨by rfl, h.1, h.2.1, h.2.2.1, (h.2.2.2.1 0 (by decide)).1, (h.2.2.2.1 0 (by decide)).2,
    (h.2.2.2.2 0 (by decide)).1, (h.2.2.2.2 0 (by decide)).2⟩

/-! ## `configure_instance`, case by case -/

theorem configure_instance_parse_failed (tvm : TvmRuntime) (self : tvm_subplugin)
    (prop : GstTensorFilterProperties)
    (h : (parse_custom_prop self.device prop.custom_properties).1 = false) :
    configure_instance tvm self prop
      = ⟨some "Failed to parse custom property.",
          { self with device := (parse_custom_prop self.device prop.custom_properties).2 }⟩ := by
  simp [configure_instance, h]

theorem configure_instance_of_empty (tvm : TvmRuntime) (self : tvm_subplugin)
    (prop : GstTensorFilterProperties)
    (h : (parse_custom_prop self.device prop.custom_properties).1 = true)
    (he : self.empty_model = true) :
    configure_instance tvm self prop
      = read_model tvm
          { self with device := (parse_custom_prop self.device prop.custom_properties).2 }
          prop := by
  simp [configure_instance, h, he]

theorem configure_instance_no_path (tvm : TvmRuntime) (self : tvm_subplugin)
    (prop : GstTensorFilterProperties)
    (h : (parse_custom_prop self.device prop.custom_properties).1 = true)
    (he : self.empty_model = false)
    (hp : prop.model_files.head? = none ∨ prop.model_files.head? = some "") :
    configure_instance tvm self prop
      = ⟨some "Model path is not given.",
          { self with device := (parse_custom_prop self.device prop.custom_properties).2 }⟩ := by
  simp only [configure_instance, h, he, Bool.not_true, Bool.not_false, Bool.false_eq_true,
    if_false, if_true, if_pos hp]

theorem configure_instance_reload (tvm : TvmRuntime) (self : tvm_subplugin)
    (prop : GstTensorFilterProperties)
    (h : (parse_custom_prop self.device prop.custom_properties).1 = true)
    (he : self.empty_model = false)
    (hp : ¬ (prop.model_files.head? = none ∨ prop.model_files.head? = some "")) :
    configure_instance tvm self prop
      = read_model tvm
          (cleanup
            { self with device := (parse_custom_prop self.device prop.custom_properties).2 })
          prop := by
  simp only [configure_instance, h, he, Bool.not_true, Bool.not_false, Bool.false_eq_true,
    if_false, if_true, if_neg hp]

theorem cleanup_of_empty (s : tvm_subplugin) (h : s.empty_model = true) : cleanup s = s := by
  simp [cleanup, h]

theorem cleanup_empty_model (s : tvm_subplugin) : (cleanup s).empty_model = true := by
  cases h : s.empty_model <;> simp [cleanup, h]

/-- An empty instance is configured without a throw when the custom property
parses, the model loads, both tensor counts are within the limit and the types of
the tensors are convertible. -/
theorem configure_instance_ok_of_empty (tvm : TvmRuntime) (self : tvm_subplugin)
    (prop : GstTensorFilterProperties) (p : String) (f g : Nat)
    (he : self.empty_model = true)
    (h : (parse_custom_prop self.device prop.custom_properties).1 = true)
    (hp : prop.model_files.head? = some p) (hf : tvm.LoadFromFile p = some f)
    (hg : tvm.GetDefault f (parse_custom_prop self.device prop.custom_properties).2 = some g)
    (h1 : int_to_unsigned (tvm.get_num_inputs g) ≤ NNS_TENSOR_SIZE_LIMIT)
    (h2 : int_to_unsigned (tvm.get_num_outputs g) ≤ NNS_TENSOR_SIZE_LIMIT)
    (h3 : ∀ j : Fin NNS_TENSOR_SIZE_LIMIT, j.val < int_to_unsigned (tvm.get_num_inputs g) →
      (prop.input_meta.info j).type ≠ _NNS_END)
    (h4 : ∀ j : Fin NNS_TENSOR_SIZE_LIMIT, j.val < int_to_unsigned (tvm.get_num_outputs g) →
      (prop.output_meta.info j).type ≠ _NNS_END) :
    (configure_instance tvm self prop).thrown = none := by
  rw [configure_instance_of_empty tvm self prop h he,
    read_model_loadable tvm _ prop p f g hp hf hg]
  exact configure_tensors_ok tvm _ prop g h1 h2 h3 h4

/-- A model file that does not load makes `configure_instance` throw. -/
theorem configure_instance_unloadable_throws (tvm : TvmRuntime) (self : tvm_subplugin)
    (prop : GstTensorFilterProperties)
    (hbad : ∀ p, prop.model_files.head? = some p → tvm.LoadFromFile p = none) :
    (configure_instance tvm self prop).thrown ≠ none := by
  cases h : (parse_custom_prop self.device prop.custom_properties).1
  · rw [configure_instance_parse_failed tvm self prop h]; simp
  · cases he : self.empty_model
    · by_cases hp : prop.model_files.head? = none ∨ prop.model_files.head? = some ""
      · rw [configure_instance_no_path tvm self prop h he hp]; simp
      · rw [configure_instance_reload tvm self prop h he hp]
        exact (read_model_unloadable tvm _ prop hbad).1
    · rw [configure_instance_of_empty tvm self prop h he]
      exact (read_model_unloadable tvm _ prop hbad).1

/-- After `configure_instance` with a model file that does not load, the instance is
empty when it was empty before, and also when the custom property parsed and a
non-empty model path was given. -/
theorem configure_instance_unloadable_empty (tvm : TvmRuntime) (self : tvm_subplugin)
    (prop : GstTensorFilterProperties)
    (hbad : ∀ p, prop.model_files.head? = some p → tvm.LoadFromFile p = none)
    (hc : self.empty_model = true
      ∨ ((parse_custom_prop self.device prop.custom_properties).1 = true
          ∧ prop.model_files.head? ≠ none ∧ prop.model_files.head? ≠ some "")) :
    (configure_instance tvm self prop).self.empty_model = true := by
  cases h : (parse_custom_prop self.device prop.custom_properties).1
  · rw [configure_instance_parse_failed tvm self prop h]
    rcases hc with he | ⟨hparse, -, -⟩
    · exact he
    · rw [h] at hparse; cases hparse
  · cases he : self.empty_model
    · rcases hc with he1 | ⟨-, hp1, hp2⟩
      · rw [he] at he1; cases he1
      · have hp : ¬ (prop.model_files.head? = none ∨ prop.model_files.head? = some "") := by
          rintro (h1 | h2)
          · exact hp1 h1
          · exact hp2 h2
        rw [configure_instance_reload tvm self prop h he hp,
          (read_model_unloadable tvm _ prop hbad).2]
        exact cleanup_empty_model _
    · rw [configure_instance_of_empty tvm self prop h he,
        (read_model_unloadable tvm _ prop hbad).2]
      exact he

theorem cleanup_device (s : tvm_subplugin) : (cleanup s).device = s.device := by
  cases h : s.empty_model <;> simp [cleanup, h]

/-- On every instance, empty or configured, `configure_instance` does not throw when
the custom property parses, the model loads (from a non-empty path when the instance
is configured), both tensor counts are within the limit and the types of the tensors
are convertible. -/
theorem configure_instance_ok_of_loadable (tvm : TvmRuntime) (self : tvm_subplugin)
    (prop : GstTensorFilterProperties) (p : String) (f g : Nat)
    (h : (parse_custom_prop self.device prop.custom_properties).1 = true)
    (hp : prop.model_files.head? = some p)
    (hne : self.empty_model = false → p ≠ "")
    (hf : tvm.LoadFromFile p = some f)
    (hg : tvm.GetDefault f (parse_custom_prop self.device prop.custom_properties).2 = some g)
    (h1 : int_to_unsigned (tvm.get_num_inputs g) ≤ NNS_TENSOR_SIZE_LIMIT)
    (h2 : int_to_unsigned (tvm.get_num_outputs g) ≤ NNS_TENSOR_SIZE_LIMIT)
    (h3 : ∀ j : Fin NNS_TENSOR_SIZE_LIMIT, j.val < int_to_unsigned (tvm.get_num_inputs g) →
      (prop.input_meta.info j).type ≠ _NNS_END)
    (h4 : ∀ j : Fin NNS_TENSOR_SIZE_LIMIT, j.val < int_to_unsigned (tvm.get_num_outputs g) →
      (prop.output_meta.info j).type ≠ _NNS_END) :
    (configure_instance tvm self prop).thrown = none := by
  cases he : self.empty_model
  · have hpath : ¬ (prop.model_files.head? = none ∨ prop.model_files.head? = some "") := by
      rw [hp]
      rintro (h0 | h0)
      · cases h0
      · exact hne he (Option.some.inj h0)
    have hg1 : tvm.GetDefault f
        (cleanup { self with
          device := (parse_custom_prop self.device prop.custom_properties).2 }).device
          = some g := by
      rw [cleanup_device]
      exact hg
    rw [configure_instance_reload tvm self prop h he hpath,
      read_model_loadable tvm _ prop p f g hp hf hg1]
    exact configure_tensors_ok tvm _ prop g h1 h2 h3 h4
  · exact configure_instance_ok_of_empty tvm self prop p f g he h hp hf hg h1 h2 h3 h4

/-- C3, as the code has it. For every instance state and every property set whose
model file cannot be loaded, `configure_instance` throws, and whatever state it
leaves, a following `configure_instance` does not throw when its custom property
parses, its model loads (from a non-empty path if the instance is still configured),
both tensor counts are within the limit and the types of its tensors are convertible.
Afterwards the instance is empty exactly when it was empty before the call, or the
custom property parsed and a non-null, non-empty model path was given; a configured
instance called with a custom property that does not parse, or with a null or empty
model path, stays configured. A following `cleanup` changes nothing exactly when the
instance is empty. (A null model path on an empty instance throws by the assumption
stated at `read_model`.) -/
theorem configure_instance_wrong_path (tvm : TvmRuntime) (self : tvm_subplugin)
    (prop : GstTensorFilterProperties)
    (hbad : ∀ p, prop.model_files.head? = some p → tvm.LoadFromFile p = none) :
    (configure_instance tvm self prop).thrown ≠ none
      ∧ (∀ (tvm2 : TvmRuntime) (prop2 : GstTensorFilterProperties) (p : String) (f g : Nat),
          (parse_custom_prop (configure_instance tvm self prop).self.device
              prop2.custom_properties).1 = true →
          prop2.model_files.head? = some p →
          ((configure_instance tvm self prop).self.empty_model = false → p ≠ "") →
          tvm2.LoadFromFile p = some f →
          tvm2.GetDefault f
              (parse_custom_prop (configure_instance tvm self prop).self.device
                prop2.custom_properties).2 = some g →
          int_to_unsigned (tvm2.get_num_inputs g) ≤ NNS_TENSOR_SIZE_LIMIT →
          int_to_unsigned (tvm2.get_num_outputs g) ≤ NNS_TENSOR_SIZE_LIMIT →
          (∀ j : Fin NNS_TENSOR_SIZE_LIMIT,
              j.val < int_to_unsigned (tvm2.get_num_inputs g) →
              (prop2.input_meta.info j).type ≠ _NNS_END) →
          (∀ j : Fin NNS_TENSOR_SIZE_LIMIT,
              j.val < int_to_unsigned (tvm2.get_num_outputs g) →
              (prop2.output_meta.info j).type ≠ _NNS_END) →
          (configure_instance tvm2 (configure_instance tvm self prop).self prop2).thrown
            = none)
      ∧ ((configure_instance tvm self prop).self.empty_model = true ↔
          (self.empty_model = true
            ∨ ((parse_custom_prop self.device prop.custom_properties).1 = true
                ∧ prop.model_files.head? ≠ none ∧ prop.model_files.head? ≠ some "")))
      ∧ (cleanup (configure_instance tvm self prop).self
            = (configure_instance tvm self prop).self ↔
          (configure_instance tvm self prop).self.empty_model = true) := by
  refine ⟨configure_instance_unloadable_throws tvm self prop hbad, ?_, ⟨?_, ?_⟩, ⟨?_, ?_⟩⟩
  · intro tvm2 prop2 p f g hparse hp hne hf hg h1 h2 h3 h4
    exact configure_instance_ok_of_loadable tvm2 _ prop2 p f g hparse hp hne hf hg h1 h2 h3 h4
  · intro hr
    by_contra hc
    have he : self.empty_model = false := by
      cases h0 : self.empty_model
      · rfl
      · exact absurd (Or.inl h0) hc
    have hstay : (configure_instance tvm self prop).self.empty_model = false := by
      cases h : (parse_custom_prop self.device prop.custom_properties).1
      · rw [configure_instance_parse_failed tvm self prop h]
        exact he
      · have hp : prop.model_files.head? = none ∨ prop.model_files.head? = some "" := by
          by_contra hp
          exact hc (Or.inr ⟨h, fun h1 => hp (Or.inl h1), fun h2 => hp (Or.inr h2)⟩)
        rw [configure_instance_no_path tvm self prop h he hp]
        exact he
    rw [hstay] at hr
    cases hr
  · exact configure_instance_unloadable_empty tvm self prop hbad
  · intro hfix
    rw [← hfix]
    exact cleanup_empty_model _
  · exact cleanup_of_empty _

/-- Witness of C3. The `openClose` test: `open` with `invalid_file_name` on a fresh
instance throws and leaves it empty, `close` changes nothing, and `open` with
`tvm_add_one` then succeeds. On the configured instance of the test,
`invalid_file_name` with a custom property that parses empties the instance, and with
the unknown device `NPU` leaves it configured; in both cases `open` with `tvm_add_one`
succeeds afterwards. -/
theorem configure_instance_wrong_path_witness :
    (∀ p, test_prop_invalid.model_files.head? = some p → test_tvm.LoadFromFile p = none)
      ∧ (configure_instance test_tvm test_fresh test_prop_invalid).thrown ≠ none
      ∧ (configure_instance test_tvm test_fresh test_prop_invalid).self.empty_model = true
      ∧ cleanup (configure_instance test_tvm test_fresh test_prop_invalid).self
          = (configure_instance test_tvm test_fresh test_prop_invalid).self
      ∧ (configure_instance test_tvm
          (configure_instance test_tvm test_fresh test_prop_invalid).self test_prop).thrown
          = none
      ∧ (configure_instance test_tvm test_opened test_prop_invalid).thrown ≠ none
      ∧ (configure_instance test_tvm test_opened test_prop_invalid).self.empty_model = true
      ∧ (configure_instance test_tvm
          (configure_instance test_tvm test_opened test_prop_invalid).self test_prop).thrown
          = none
      ∧ (configure_instance test_tvm test_opened test_prop_bad_device).thrown ≠ none
      ∧ ¬ (configure_instance test_tvm test_opened test_prop_bad_device).self.empty_model = true
      ∧ (configure_instance test_tvm
          (configure_instance test_tvm test_opened test_prop_bad_device).self test_prop).thrown
          = none :=
  have hbad : ∀ p, test_prop_invalid.model_files.head? = some p →
      test_tvm.LoadFromFile p = none := by
    intro p hp
    have : p = "invalid_file_name" := (Option.some.inj hp).symm
    subst this
    decide
  have hbad2 : ∀ p, test_prop_bad_device.model_files.head? = some p →
      test_tvm.LoadFromFile p = none := by
    intro p hp
    have : p = "invalid_file_name" := (Option.some.inj hp).symm
    subst this
    decide
  have h := configure_instance_wrong_path test_tvm test_fresh test_prop_invalid hbad
  have k := configure_instance_wrong_path test_tvm test_opened test_prop_invalid hbad
  have m := configure_instance_wrong_path test_tvm test_opened test_prop_bad_device hbad2
  have he := h.2.2.1.mpr (Or.inl (by rfl))
  ⟨hbad, h.1, he, h.2.2.2.mpr he,
    h.2.1 test_tvm test_prop "tvm_add_one" 1 2 (by rfl) (by rfl) (by decide) (by rfl) (by rfl)
      (by decide) (by decide) (by decide) (by decide),
    k.1, k.2.2.1.mpr (Or.inr ⟨by decide, by decide, by decide⟩),
    k.2.1 test_tvm test_prop "tvm_add_one" 1 2 (by rfl) (by rfl) (by decide) (by rfl) (by rfl)
      (by decide) (by decide) (by decide) (by decide),
    m.1, fun hm => absurd (m.2.2.1.mp hm) (by decide),
    m.2.1 test_tvm test_prop "tvm_add_one" 1 2 (by rfl) (by rfl) (by decide) (by rfl) (by rfl)
      (by decide) (by decide) (by decide) (by decide)⟩

/-- Counterexample to C3 as stated. On the configured instance of the test, a
property set with the unloadable file `invalid_file_name` and an unknown device, and
one with an empty (hence unloadable) model path, both make `configure_instance`
throw, yet the instance stays configured (`empty_model` is false), so that a
following `cleanup` does change it. -/
theorem configure_instance_wrong_path_counterexample :
    test_opened.empty_model = false
      ∧ test_tvm.LoadFromFile "invalid_file_name" = none
      ∧ (configure_instance test_tvm test_opened test_prop_bad_device).thrown
          = some "Failed to parse custom property."
      ∧ (configure_instance test_tvm test_opened test_prop_bad_device).self.empty_model = false
      ∧ (cleanup (configure_instance test_tvm test_opened test_prop_bad_device).self).empty_model
          ≠ (configure_instance test_tvm test_opened test_prop_bad_device).self.empty_model
      ∧ test_tvm.LoadFromFile "" = none
      ∧ (configure_instance test_tvm test_opened test_prop_no_path).thrown
          = some "Model path is not given."
      ∧ (configure_instance test_tvm test_opened test_prop_no_path).self.empty_model = false
      ∧ (cleanup (configure_instance test_tvm test_opened test_prop_no_path).self).empty_model
          ≠ (configure_instance test_tvm test_opened test_prop_no_path).self.empty_model := by
  refine ⟨by rfl, by decide, by decide, by decide, by decide, by decide, by decide, by decide,
    by decide⟩

/-! ## Helper lemmas on `parse_custom_prop` -/

theorem split_at_ne_nil (sep : Char) (s : List Char) : split_at sep s ≠ [] := by
  cases s with
  | nil => simp [split_at]
  | cons c cs =>
    unfold split_at
    split
    · simp
    · split <;> simp

theorem split_at_no_sep (sep : Char) (s : List Char) (h : sep ∉ s) : split_at sep s = [s] := by
  induction s with
  | nil => rfl
  | cons c cs ih =>
    have hc : ¬ c = sep := fun e => h (by simp [e])
    have hcs : sep ∉ cs := fun e => h (by simp [e])
    unfold split_at
    rw [if_neg hc, ih hcs]

/-- The flag that one pass of the loop body of `parse_custom_prop` sets is the
rejection rule applied to the option. -/
theorem parse_option_flag (device : DLDevice) (opt : List Char) :
    (parse_option device opt).1 = option_rejected opt := by
  unfold parse_option option_rejected g_strsplit g_strv_length
  by_cases ho : opt = []
  · subst ho
    simp [split_at]
  · rw [if_neg ho]
    rcases hs : split_at ':' opt with _ | ⟨key, _ | ⟨value, rest⟩⟩
    · simp
    · simp
    · simp only [List.length_cons, List.getD_cons_zero, List.getD_cons_succ]
      have hlen : rest.length + 1 + 1 > 1 := by omega
      rw [if_pos hlen]
      generalize "device".toList = kd
      generalize "CPU".toList = kc
      generalize "GPU".toList = kg
      by_cases h1 : g_ascii_strcasecmp_eq (g_strstrip key) kd = true <;>
        by_cases h2 : g_ascii_strcasecmp_eq (g_strstrip value) kc = true <;>
        by_cases h3 : g_ascii_strcasecmp_eq (g_strstrip value) kg = true <;>
        simp [h1, h2, h3]

/-- The loop of `parse_custom_prop` ends with `invalid_option` set exactly when some
option is rejected. -/
theorem parse_options_flag (options : List (List Char)) :
    ∀ device : DLDevice, (parse_options device options).1 = options.any option_rejected := by
  induction options with
  | nil => intro device; rfl
  | cons opt rest ih =>
    intro device
    have hf := parse_option_flag device opt
    unfold parse_options
    split
    · rename_i d1 heq
      rw [heq] at hf
      simp [← hf]
    · rename_i d1 heq
      rw [heq] at hf
      simp only [List.any_cons, ← hf, Bool.false_or]
      exact ih d1

theorem any_g_strsplit (s : List Char) :
    (g_strsplit s ',').any option_rejected = (split_at ',' s).any option_rejected := by
  unfold g_strsplit
  by_cases hs : s = []
  · subst hs
    simp [split_at, option_rejected]
  · rw [if_neg hs]

theorem parse_custom_prop_flag (device : DLDevice) (s : String) :
    (parse_custom_prop device (some s)).1 = !custom_prop_rejected s := by
  simp only [parse_custom_prop, custom_prop_rejected, parse_options_flag, any_g_strsplit]

theorem option_rejected_of_no_colon (opt : List Char) (h : ':' ∉ opt) :
    option_rejected opt = false := by
  simp [option_rejected, split_at_no_sep ':' opt h]

theorem option_rejected_of_other_key (opt : List Char) (h : option_key_is_device opt = false) :
    option_rejected opt = false := by
  unfold option_key_is_device at h
  unfold option_rejected
  rcases hs : split_at ':' opt with _ | ⟨key, _ | ⟨value, rest⟩⟩
  · rfl
  · rfl
  · rw [hs] at h
    simp only at h
    simp only [h, Bool.false_and]

/-! ## Theorem on `parse_custom_prop` -/

/-- C6. `parse_custom_prop` returns true for a null string; for a non-null string it
returns false exactly when some comma-separated option has at least two
colon-separated parts whose first part, stripped, is `device` ignoring ASCII case and
whose second part, stripped, is neither `CPU` nor `GPU` ignoring ASCII case;
`configure_instance` then throws `Failed to parse custom property.` with nothing but
`device` touched, whatever the runtime would load; and a string all of whose options
lack a colon or have another key is accepted. -/
theorem parse_custom_prop_rejects (device : DLDevice) (s : String) (tvm : TvmRuntime)
    (self : tvm_subplugin) (prop : GstTensorFilterProperties) :
    (parse_custom_prop device none).1 = true
      ∧ ((parse_custom_prop device (some s)).1 = false ↔ custom_prop_rejected s = true)
      ∧ (prop.custom_properties = some s → custom_prop_rejected s = true →
          configure_instance tvm self prop
            = ⟨some "Failed to parse custom property.",
                { self with device := (parse_custom_prop self.device (some s)).2 }⟩)
      ∧ ((∀ opt ∈ split_at ',' s.toList, ':' ∉ opt ∨ option_key_is_device opt = false) →
          (parse_custom_prop device (some s)).1 = true) := by
  refine ⟨rfl, ?_, ?_, ?_⟩
  · rw [parse_custom_prop_flag]
    cases custom_prop_rejected s <;> simp
  · intro hs hr
    have hf : (parse_custom_prop self.device prop.custom_properties).1 = false := by
      rw [hs, parse_custom_prop_flag, hr]
      rfl
    rw [configure_instance_parse_failed tvm self prop hf, hs]
  · intro hall
    rw [parse_custom_prop_flag]
    have hnone : custom_prop_rejected s = false := by
      unfold custom_prop_rejected
      rw [List.any_eq_false]
      intro opt hopt
      rcases hall opt hopt with h | h
      · simp [option_rejected_of_no_colon opt h]
      · simp [option_rejected_of_other_key opt h]
    rw [hnone]
    rfl

/-- Witness of C6: the custom property `device:NPU` is rejected and makes
`configure_instance` throw on the fresh instance, and `accl:auto,verbose` (another
key, and an option without a colon) is accepted. -/
theorem parse_custom_prop_rejects_witness :
    custom_prop_rejected "device:NPU" = true
      ∧ configure_instance test_tvm test_fresh test_prop_bad_device
          = ⟨some "Failed to parse custom property.",
              { test_fresh with
                device := (parse_custom_prop test_fresh.device (some "device:NPU")).2 }⟩
      ∧ (∀ opt ∈ split_at ',' "accl:auto,verbose".toList,
          ':' ∉ opt ∨ option_key_is_device opt = false)
      ∧ (parse_custom_prop ⟨kDLCPU, 0⟩ (some "accl:auto,verbose")).1 = true :=
  ⟨by decide,
   (parse_custom_prop_rejects ⟨kDLCPU, 0⟩ "device:NPU" test_tvm test_fresh
      test_prop_bad_device).2.2.1 (by rfl) (by decide),
   by decide,
   (parse_custom_prop_rejects ⟨kDLCPU, 0⟩ "accl:auto,verbose" test_tvm test_fresh
      test_prop_bad_device).2.2.2 (by decide)⟩

/-! ## The negotiation state machine -/

theorem negotiation_run_snoc (cmds : List TensorQueryCommand) (c : TensorQueryCommand) :
    negotiation_run (cmds ++ [c]) = (negotiation_step (negotiation_run cmds) c).1 := by
  simp [negotiation_run, List.foldl_append]

/-- The machine is in `AWAITING_DECISION` only right after a `TRANSFER_START`. -/
theorem negotiation_awaiting_inv (cmds : List TensorQueryCommand)
    (h : negotiation_run cmds = AWAITING_DECISION) :
    ∃ pre, cmds = pre ++ [_TENSOR_QUERY_CMD_TRANSFER_START] := by
  rcases List.eq_nil_or_concat cmds with hnil | ⟨init, c, hc⟩
  · subst hnil
    simp [negotiation_run] at h
  · subst hc
    rw [List.concat_eq_append] at h ⊢
    rw [negotiation_run_snoc] at h
    refine ⟨init, ?_⟩
    cases hs : negotiation_run init <;> cases c <;> simp [hs, negotiation_step] at h ⊢

/-- The machine is in `STREAMING` only when a `TRANSFER_START` accepted earlier was
answered by a `TRANSFER_APPROVE` and nothing but `TRANSFER_DATA` followed. -/
theorem negotiation_streaming_inv (cmds : List TensorQueryCommand) :
    negotiation_run cmds = STREAMING →
    ∃ pre post, cmds = pre ++ _TENSOR_QUERY_CMD_TRANSFER_START
          :: _TENSOR_QUERY_CMD_TRANSFER_APPROVE :: post
      ∧ negotiation_run (pre ++ [_TENSOR_QUERY_CMD_TRANSFER_START]) = AWAITING_DECISION
      ∧ ∀ c ∈ post, c = _TENSOR_QUERY_CMD_TRANSFER_DATA := by
  induction cmds using List.reverseRecOn with
  | nil => intro h; simp [negotiation_run] at h
  | append_singleton init c ih =>
    intro h
    rw [negotiation_run_snoc] at h
    cases hs : negotiation_run init <;> cases c <;> simp [hs, negotiation_step] at h
    · obtain ⟨pre, hpre⟩ := negotiation_awaiting_inv init hs
      refine ⟨pre, [], ?_, ?_, ?_⟩
      · simp [hpre]
      · rw [← hpre]; exact hs
      · simp
    · obtain ⟨pre, post, hcmds, hrun, hpost⟩ := ih hs
      refine ⟨pre, post ++ [_TENSOR_QUERY_CMD_TRANSFER_DATA], ?_, hrun, ?_⟩
      · simp [hcmds]
      · intro c hc
        rcases List.mem_append.mp hc with h1 | h1
        · exact hpost c h1
        · simpa using h1

/-- C8. In every reachable state of the negotiation state machine (the state after
any sequence `cmds` of commands observed on the connection), `TRANSFER_DATA` is
accepted only in `STREAMING`, that is only when a `TRANSFER_APPROVE` answering an
earlier accepted `TRANSFER_START` was observed (and only `TRANSFER_DATA` since); in
any other state `TRANSFER_DATA` is rejected and moves the machine to `CLOSED`. -/
theorem transfer_data_only_when_streaming (cmds : List TensorQueryCommand) :
    ((negotiation_step (negotiation_run cmds) _TENSOR_QUERY_CMD_TRANSFER_DATA).2 = true →
        negotiation_run cmds = STREAMING
          ∧ ∃ pre post, cmds = pre ++ _TENSOR_QUERY_CMD_TRANSFER_START
                :: _TENSOR_QUERY_CMD_TRANSFER_APPROVE :: post
            ∧ negotiation_run (pre ++ [_TENSOR_QUERY_CMD_TRANSFER_START]) = AWAITING_DECISION
            ∧ ∀ c ∈ post, c = _TENSOR_QUERY_CMD_TRANSFER_DATA)
      ∧ (negotiation_run cmds ≠ STREAMING →
          negotiation_step (negotiation_run cmds) _TENSOR_QUERY_CMD_TRANSFER_DATA
            = (CLOSED, false)) := by
  constructor
  · intro h
    have hs : negotiation_run cmds = STREAMING := by
      cases hs : negotiation_run cmds <;> simp [hs, negotiation_step] at h ⊢
    exact ⟨hs, negotiation_streaming_inv cmds hs⟩
  · intro h
    cases hs : negotiation_run cmds <;> simp [hs, negotiation_step] at h ⊢

/-- Witness of C8: after `START, APPROVE, DATA` a further `TRANSFER_DATA` is accepted
and the trace has the promised shape; after `START` alone, and on a fresh
connection, `TRANSFER_DATA` is rejected with a move to `CLOSED`. -/
theorem transfer_data_only_when_streaming_witness :
    (negotiation_step
        (negotiation_run [_TENSOR_QUERY_CMD_TRANSFER_START, _TENSOR_QUERY_CMD_TRANSFER_APPROVE,
          _TENSOR_QUERY_CMD_TRANSFER_DATA]) _TENSOR_QUERY_CMD_TRANSFER_DATA).2 = true
      ∧ negotiation_run [_TENSOR_QUERY_CMD_TRANSFER_START, _TENSOR_QUERY_CMD_TRANSFER_APPROVE,
          _TENSOR_QUERY_CMD_TRANSFER_DATA] = STREAMING
      ∧ negotiation_step (negotiation_run [_TENSOR_QUERY_CMD_TRANSFER_START])
          _TENSOR_QUERY_CMD_TRANSFER_DATA = (CLOSED, false)
      ∧ negotiation_step (negotiation_run []) _TENSOR_QUERY_CMD_TRANSFER_DATA
          = (CLOSED, false) :=
  ⟨by decide,
   ((transfer_data_only_when_streaming [_TENSOR_QUERY_CMD_TRANSFER_START,
      _TENSOR_QUERY_CMD_TRANSFER_APPROVE, _TENSOR_QUERY_CMD_TRANSFER_DATA]).1 (by decide)).1,
   (transfer_data_only_when_streaming [_TENSOR_QUERY_CMD_TRANSFER_START]).2 (by decide),
   (transfer_data_only_when_streaming []).2 (by decide)⟩

/-! ## The command codec: reading back what was written -/

theorem length_encode_uint (width : Nat) : ∀ v : Nat, (encode_uint width v).length = width := by
  induction width with
  | zero => intro v; rfl
  | succ w ih => intro v; simp [encode_uint, ih]

theorem decode_encode_uint (width : Nat) :
    ∀ (v : Nat) (rest : List Nat), v < 256 ^ width →
      decode_uint width (encode_uint width v ++ rest) = some (v, rest) := by
  induction width with
  | zero =>
    intro v rest h
    have : v = 0 := by simpa using h
    subst this
    rfl
  | succ w ih =>
    intro v rest h
    have h1 : v / 256 < 256 ^ w := by
      rw [Nat.div_lt_iff_lt_mul (by norm_num)]
      rw [pow_succ] at h
      exact h
    have e := ih (v / 256) rest h1
    have hv : v % 256 % 256 + 256 * (v / 256) = v := by omega
    show decode_uint (w + 1) ((v % 256) :: (encode_uint w (v / 256) ++ rest)) = some (v, rest)
    rw [decode_uint, e]
    simp only [hv]

theorem decode_encode_int64 (x : Int) (rest : List Nat)
    (hlo : -(2 : Int) ^ 63 ≤ x) (hhi : x < (2 : Int) ^ 63) :
    decode_int64 (encode_int64 x ++ rest) = some (x, rest) := by
  unfold decode_int64 encode_int64
  have hnn : 0 ≤ x % (2 : Int) ^ 64 := Int.emod_nonneg _ (by norm_num)
  have hlt : x % (2 : Int) ^ 64 < (2 : Int) ^ 64 := Int.emod_lt_of_pos _ (by norm_num)
  have hb : (x % (2 : Int) ^ 64).toNat < 256 ^ 8 := by
    have : ((x % (2 : Int) ^ 64).toNat : Int) = x % (2 : Int) ^ 64 := Int.toNat_of_nonneg hnn
    have h2 : ((x % (2 : Int) ^ 64).toNat : Int) < ((256 ^ 8 : Nat) : Int) := by
      rw [this]; norm_num at hlt ⊢; exact hlt
    exact_mod_cast h2
  rw [decode_encode_uint 8 _ rest hb]
  simp only
  have hcast : ((x % (2 : Int) ^ 64).toNat : Int) = x % (2 : Int) ^ 64 := Int.toNat_of_nonneg hnn
  congr 2
  by_cases hx : 0 ≤ x
  · have e : x % (2 : Int) ^ 64 = x := Int.emod_eq_of_lt hx (by omega)
    have hlt63 : (x % (2 : Int) ^ 64).toNat < 2 ^ 63 := by
      have : ((x % (2 : Int) ^ 64).toNat : Int) < ((2 ^ 63 : Nat) : Int) := by
        rw [hcast, e]; norm_num at hhi ⊢; exact hhi
      exact_mod_cast this
    rw [if_pos hlt63, hcast, e]
  · have e : x % (2 : Int) ^ 64 = x + (2 : Int) ^ 64 := by
      rw [← Int.add_emod_self]
      exact Int.emod_eq_of_lt (by omega) (by omega)
    have hge63 : ¬ (x % (2 : Int) ^ 64).toNat < 2 ^ 63 := by
      intro hc
      have : ((x % (2 : Int) ^ 64).toNat : Int) < ((2 ^ 63 : Nat) : Int) := by exact_mod_cast hc
      rw [hcast, e] at this
      norm_num at this hlo
      omega
    rw [if_neg hge63, hcast, e]
    ring

theorem decode_encode_dims (ds : List Nat) :
    ∀ rest : List Nat, (∀ d ∈ ds, d < 2 ^ 32) →
      decode_dims ds.length (encode_dims ds ++ rest) = some (ds, rest) := by
  induction ds with
  | nil => intro rest _; rfl
  | cons d ds ih =>
    intro rest h
    have hd : d < 256 ^ 4 := by
      have := h d (by simp)
      norm_num at this ⊢
      exact this
    have hds : ∀ x ∈ ds, x < 2 ^ 32 := fun x hx => h x (by simp [hx])
    simp only [encode_dims, List.length_cons, decode_dims, List.append_assoc,
      decode_encode_uint 4 d _ hd, ih rest hds]

theorem tensor_type_ofNat_toNat (t : tensor_type) :
    tensor_type.ofNat? t.toNat = some t ∧ t.toNat < 256 ^ 1 := by
  cases t <;> exact ⟨rfl, by decide⟩

/-- Reading back one tensor: the dimensions and the type are those written, the name
is null. -/
theorem decode_encode_tensor (t : GstTensorInfo) (rest : List Nat)
    (h : ∀ k, t.dimension k < 2 ^ 32) :
    decode_tensor (encode_tensor t ++ rest) = some (⟨none, t.type, t.dimension⟩, rest) := by
  unfold decode_tensor encode_tensor
  have hlen : (List.ofFn t.dimension).length = NNS_TENSOR_RANK_LIMIT := List.length_ofFn _
  have hds : ∀ d ∈ List.ofFn t.dimension, d < 2 ^ 32 := by
    intro d hd
    rw [List.mem_ofFn] at hd
    obtain ⟨k, rfl⟩ := hd
    exact h k
  have e1 := decode_encode_dims (List.ofFn t.dimension)
    (encode_uint 1 t.type.toNat ++ rest) hds
  rw [hlen] at e1
  rw [List.append_assoc, e1]
  simp only
  rw [decode_encode_uint 1 _ rest (tensor_type_ofNat_toNat t.type).2]
  simp only [(tensor_type_ofNat_toNat t.type).1]
  congr 2
  congr 1
  funext k
  rw [List.getD_eq_getElem _ _ (by rw [hlen]; exact k.isLt)]
  fin_cases k <;> rfl

theorem decode_encode_tensors (ts : List GstTensorInfo) :
    ∀ rest : List Nat, (∀ t ∈ ts, ∀ k, t.dimension k < 2 ^ 32) →
      decode_tensors ts.length (encode_tensors ts ++ rest)
        = some (ts.map (fun t => ⟨none, t.type, t.dimension⟩), rest) := by
  induction ts with
  | nil => intro rest _; rfl
  | cons t ts ih =>
    intro rest h
    have ht := h t (by simp)
    have hts : ∀ x ∈ ts, ∀ k, x.dimension k < 2 ^ 32 := fun x hx => h x (by simp [hx])
    simp only [encode_tensors, List.length_cons, decode_tensors, List.append_assoc,
      decode_encode_tensor t _ ht, ih rest hts, List.map_cons]

theorem length_encode_dims (ds : List Nat) : (encode_dims ds).length = 4 * ds.length := by
  induction ds with
  | nil => rfl
  | cons d ds ih => simp [encode_dims, length_encode_uint, ih]; omega

theorem length_encode_tensors (ts : List GstTensorInfo) :
    (encode_tensors ts).length = 17 * ts.length := by
  induction ts with
  | nil => rfl
  | cons t ts ih =>
    simp [encode_tensors, encode_tensor, length_encode_dims, length_encode_uint, ih]
    omega

theorem length_encode_data_info (i : TensorQueryDataInfo) :
    (encode_data_info i).length = 44 + 17 * i.config.info.num_tensors := by
  simp [encode_data_info, encode_int64, length_encode_uint, length_encode_tensors]
  omega

/-- Reading back the payload of `TRANSFER_START`: count, shapes, types and the time
fields are those written; names, frame rate and the entries at and above the count
come out reset. -/
theorem decode_encode_data_info (i : TensorQueryDataInfo) (rest : List Nat)
    (hn : i.config.info.num_tensors ≤ NNS_TENSOR_SIZE_LIMIT) (hr : i.in_range) :
    decode_data_info (encode_data_info i ++ rest)
      = some (⟨⟨⟨i.config.info.num_tensors,
            fun j => (((List.range i.config.info.num_tensors).map
                (info_get i.config.info.info)).map
                  (fun t => (⟨none, t.type, t.dimension⟩ : GstTensorInfo))).getD j.val
              ⟨none, _NNS_END, fun _ => 0⟩⟩, 0, 0⟩,
          i.base_time, i.sent_time, i.duration, i.dts, i.pts⟩, rest) := by
  obtain ⟨hdim, ⟨hb1, hb2⟩, ⟨hs1, hs2⟩, hdur, hdts, hpts⟩ := hr
  have hn16 : i.config.info.num_tensors ≤ 16 := hn
  have hcount : i.config.info.num_tensors < 256 ^ 4 := by
    have : (256 : Nat) ^ 4 = 4294967296 := by norm_num
    omega
  have hts : ∀ t ∈ (List.range i.config.info.num_tensors).map (info_get i.config.info.info),
      ∀ k, t.dimension k < 2 ^ 32 := by
    intro t ht k
    rw [List.mem_map] at ht
    obtain ⟨j, hj, rfl⟩ := ht
    have hjn := List.mem_range.mp hj
    have hj16 : j < NNS_TENSOR_SIZE_LIMIT := by omega
    rw [info_get_lt _ _ hj16]
    exact hdim ⟨j, hj16⟩ hjn k
  have hlen : ((List.range i.config.info.num_tensors).map
      (info_get i.config.info.info)).length = i.config.info.num_tensors := by simp
  have e8 : (256 : Nat) ^ 8 = 2 ^ 64 := by norm_num
  have et := decode_encode_tensors
    ((List.range i.config.info.num_tensors).map (info_get i.config.info.info))
    (encode_int64 i.base_time ++ (encode_int64 i.sent_time ++ (encode_uint 8 i.duration
      ++ (encode_uint 8 i.dts ++ (encode_uint 8 i.pts ++ rest))))) hts
  rw [hlen] at et
  unfold decode_data_info encode_data_info
  simp only [List.append_assoc]
  rw [decode_encode_uint 4 _ _ hcount]
  simp only
  rw [if_neg (by omega), et]
  simp only
  rw [decode_encode_int64 _ _ hb1 hb2]
  simp only
  rw [decode_encode_int64 _ _ hs1 hs2]
  simp only
  rw [decode_encode_uint 8 _ _ (by rw [e8]; exact hdur)]
  simp only
  rw [decode_encode_uint 8 _ _ (by rw [e8]; exact hdts)]
  simp only
  rw [decode_encode_uint 8 _ _ (by rw [e8]; exact hpts)]

theorem protocol_ofNat_toNat (p : TensorQueryProtocol) (hp : p ≠ _TENSOR_QUERY_PROTOCOL_END) :
    TensorQueryProtocol.ofNat? (p.toNat % 256 + 256 * 0) = some p := by
  cases p <;> first | rfl | exact absurd rfl hp

/-- Reading back a `TRANSFER_START` envelope without the length prefix. -/
theorem decode_body_transfer_start (i : TensorQueryDataInfo) (p : TensorQueryProtocol)
    (hp : p ≠ _TENSOR_QUERY_PROTOCOL_END)
    (hn : i.config.info.num_tensors ≤ NNS_TENSOR_SIZE_LIMIT) (hr : i.in_range) :
    decode_body ([_TENSOR_QUERY_CMD_TRANSFER_START.toNat, p.toNat] ++ encode_data_info i)
      = some ⟨_TENSOR_QUERY_CMD_TRANSFER_START, p, .data_info
          ⟨⟨⟨i.config.info.num_tensors,
            fun j => (((List.range i.config.info.num_tensors).map
                (info_get i.config.info.info)).map
                  (fun t => (⟨none, t.type, t.dimension⟩ : GstTensorInfo))).getD j.val
              ⟨none, _NNS_END, fun _ => 0⟩⟩, 0, 0⟩,
          i.base_time, i.sent_time, i.duration, i.dts, i.pts⟩⟩ := by
  have e := decode_encode_data_info i [] hn hr
  rw [List.append_nil] at e
  unfold decode_body
  simp only [List.cons_append, List.nil_append, decode_uint, TensorQueryCommand.toNat,
    protocol_ofNat_toNat p hp]
  simp only [Nat.zero_mod, Nat.mul_zero, Nat.add_zero, TensorQueryCommand.ofNat?,
    List.append_eq, List.nil_append, e, if_true]

/-- C7. For every stream metadata whose tensor count is at most the platform tensor
limit (and whose fields are within the ranges of their C types), on every transport
kind, encoding it as a `TRANSFER_START` envelope succeeds and decoding the bytes
yields a `TRANSFER_START` envelope of the same transport kind with the same tensor
count, the same shape and element type for every tensor below the count, and the
same `base_time`, `sent_time`, `duration`, `dts` and `pts`. -/
theorem transfer_start_roundtrip (i : TensorQueryDataInfo) (p : TensorQueryProtocol)
    (hp : p ≠ _TENSOR_QUERY_PROTOCOL_END)
    (hn : i.config.info.num_tensors ≤ NNS_TENSOR_SIZE_LIMIT) (hr : i.in_range) :
    ∃ (bytes : List Nat) (i1 : TensorQueryDataInfo),
      encode ⟨_TENSOR_QUERY_CMD_TRANSFER_START, p, .data_info i⟩ = some bytes
      ∧ decode p bytes = some ⟨_TENSOR_QUERY_CMD_TRANSFER_START, p, .data_info i1⟩
      ∧ i1.config.info.num_tensors = i.config.info.num_tensors
      ∧ (∀ j : Fin NNS_TENSOR_SIZE_LIMIT, j.val < i.config.info.num_tensors →
          (i1.config.info.info j).dimension = (i.config.info.info j).dimension
          ∧ (i1.config.info.info j).type = (i.config.info.info j).type)
      ∧ i1.base_time = i.base_time ∧ i1.sent_time = i.sent_time
      ∧ i1.duration = i.duration ∧ i1.dts = i.dts ∧ i1.pts = i.pts := by
  have hbody : encode_body ⟨_TENSOR_QUERY_CMD_TRANSFER_START, p, .data_info i⟩
      = some ([_TENSOR_QUERY_CMD_TRANSFER_START.toNat, p.toNat] ++ encode_data_info i) := by
    simp [encode_body, hp]
  have hdec := decode_body_transfer_start i p hp hn hr
  have hlen : ([_TENSOR_QUERY_CMD_TRANSFER_START.toNat, p.toNat] ++ encode_data_info i).length
      < 2 ^ 32 := by
    have hn16 : i.config.info.num_tensors ≤ 16 := hn
    simp only [List.length_append, List.length_cons, List.length_nil, length_encode_data_info]
    omega
  have hfields : ∀ j : Fin NNS_TENSOR_SIZE_LIMIT, j.val < i.config.info.num_tensors →
      (((List.range i.config.info.num_tensors).map (info_get i.config.info.info)).map
          (fun t => (⟨none, t.type, t.dimension⟩ : GstTensorInfo))).getD j.val
            ⟨none, _NNS_END, fun _ => 0⟩
        = ⟨none, (i.config.info.info j).type, (i.config.info.info j).dimension⟩ := by
    intro j hj
    rw [List.getD_eq_getElem _ _ (by simpa using hj)]
    simp [info_get_lt _ _ j.isLt]
  refine ⟨if p = _TENSOR_QUERY_PROTOCOL_TCP then
        encode_uint 4
            ([_TENSOR_QUERY_CMD_TRANSFER_START.toNat, p.toNat] ++ encode_data_info i).length
          ++ ([_TENSOR_QUERY_CMD_TRANSFER_START.toNat, p.toNat] ++ encode_data_info i)
      else [_TENSOR_QUERY_CMD_TRANSFER_START.toNat, p.toNat] ++ encode_data_info i,
    ⟨⟨⟨i.config.info.num_tensors,
        fun j => (((List.range i.config.info.num_tensors).map
            (info_get i.config.info.info)).map
              (fun t => (⟨none, t.type, t.dimension⟩ : GstTensorInfo))).getD j.val
          ⟨none, _NNS_END, fun _ => 0⟩⟩, 0, 0⟩,
      i.base_time, i.sent_time, i.duration, i.dts, i.pts⟩,
    ?_, ?_, rfl, ?_, rfl, rfl, rfl, rfl, rfl⟩
  · unfold encode
    rw [hbody]
    by_cases htcp : p = _TENSOR_QUERY_PROTOCOL_TCP
    · simp only [htcp, if_true]
      rw [htcp] at hlen
      rw [if_pos hlen]
    · simp only [htcp, if_false]
  · by_cases htcp : p = _TENSOR_QUERY_PROTOCOL_TCP
    · subst htcp
      simp only [if_true]
      unfold decode
      simp only
      rw [decode_encode_uint 4 _ _ (by
        have : (256 : Nat) ^ 4 = 2 ^ 32 := by norm_num
        rw [this]; exact hlen)]
      simp only [if_true]
      exact hdec
    · simp only [if_neg htcp]
      have : decode p ([_TENSOR_QUERY_CMD_TRANSFER_START.toNat, p.toNat] ++ encode_data_info i)
          = decode_body
              ([_TENSOR_QUERY_CMD_TRANSFER_START.toNat, p.toNat] ++ encode_data_info i) := by
        cases p
        · exact absurd rfl htcp
        · rfl
        · rfl
        · exact absurd rfl hp
      rw [this]
      exact hdec
  · intro j hj
    simp only [hfields j hj, and_self]

/-- Witness of C7: the one-tensor `float32` metadata of Scenario A over TCP. -/
theorem transfer_start_roundtrip_witness :
    test_data_info.in_range
      ∧ ∃ (bytes : List Nat) (i1 : TensorQueryDataInfo),
        encode ⟨_TENSOR_QUERY_CMD_TRANSFER_START, _TENSOR_QUERY_PROTOCOL_TCP,
            .data_info test_data_info⟩ = some bytes
        ∧ decode _TENSOR_QUERY_PROTOCOL_TCP bytes
            = some ⟨_TENSOR_QUERY_CMD_TRANSFER_START, _TENSOR_QUERY_PROTOCOL_TCP, .data_info i1⟩
        ∧ i1.config.info.num_tensors = test_data_info.config.info.num_tensors
        ∧ (∀ j : Fin NNS_TENSOR_SIZE_LIMIT, j.val < test_data_info.config.info.num_tensors →
            (i1.config.info.info j).dimension = (test_data_info.config.info.info j).dimension
            ∧ (i1.config.info.info j).type = (test_data_info.config.info.info j).type)
        ∧ i1.base_time = test_data_info.base_time ∧ i1.sent_time = test_data_info.sent_time
        ∧ i1.duration = test_data_info.duration ∧ i1.dts = test_data_info.dts
        ∧ i1.pts = test_data_info.pts :=
  have hr : test_data_info.in_range := by
    refine ⟨?_, by decide, by decide, by decide, by decide, by decide⟩
    intro j hj k
    have hj0 : j = 0 := Fin.ext (Nat.lt_one_iff.mp hj)
    subst hj0
    fin_cases k <;> decide
  ⟨hr, transfer_start_roundtrip test_data_info _TENSOR_QUERY_PROTOCOL_TCP (by decide)
    (by decide) hr⟩

/-! ## The info lists after `configure_instance` -/

/-- When the loop of `configure_meta` runs to the end it has appended the entry of
each tensor it read, in order. -/
theorem configure_meta_loop_spec (tensor_meta : GstTensorsInfo) (count : Nat) :
    ∀ (i : Nat) (l : List tvm_data_info),
      (configure_meta_loop tensor_meta count i l).1 = true →
      (configure_meta_loop tensor_meta count i l).2
        = l ++ (List.range count).map
            (fun k => tvm_data_info_of (info_get tensor_meta.info (i + k))) := by
  induction count with
  | zero => intro i l _; simp [configure_meta_loop]
  | succ n ih =>
    intro i l h
    unfold configure_meta_loop at h ⊢
    simp only at h ⊢
    split at h
    · simp at h
    · rename_i dtype heq
      rw [ih (i + 1) _ h, List.range_succ_eq_map, List.map_cons, List.map_map,
        List.append_assoc]
      have hd : dtype = (convert_nns_type (info_get tensor_meta.info i).type dtype_uninit).2 := by
        rw [heq]
      simp only [List.singleton_append, Nat.add_zero, tvm_data_info_of, hd]
      congr 2
      apply List.map_congr_left
      intro k _
      simp only [Function.comp, Nat.succ_eq_add_one]
      rw [show i + 1 + k = i + (k + 1) by omega]

/-- A successful `configure_meta` on an empty list establishes the invariant. -/
theorem configure_meta_matches (tensor_meta : GstTensorsInfo)
    (h : (configure_meta tensor_meta []).1 = true) :
    info_list_matches tensor_meta (configure_meta tensor_meta []).2 := by
  unfold configure_meta at h ⊢
  rw [configure_meta_loop_spec tensor_meta _ 0 [] h]
  constructor
  · simp
  · intro i hi
    simp [hi]

/-- The info lists after a `configure_tensors` that did not throw: both calls of
`configure_meta` returned true and the lists are what they left. -/
theorem configure_tensors_ok_lists (tvm : TvmRuntime) (self : tvm_subplugin)
    (prop : GstTensorFilterProperties) (g : Nat)
    (h : (configure_tensors tvm self prop g).thrown = none) :
    (configure_meta (configure_tensors tvm self prop g).self.inputInfo self.input_info_list).1
        = true
      ∧ (configure_tensors tvm self prop g).self.input_info_list
          = (configure_meta (configure_tensors tvm self prop g).self.inputInfo
              self.input_info_list).2
      ∧ (configure_meta (configure_tensors tvm self prop g).self.outputInfo
          self.output_info_list).1 = true
      ∧ (configure_tensors tvm self prop g).self.output_info_list
          = (configure_meta (configure_tensors tvm self prop g).self.outputInfo
              self.output_info_list).2 := by
  unfold configure_tensors at h ⊢
  simp only at h ⊢
  generalize set_tensor_info self.inputInfo prop.input_meta
    (int_to_unsigned (tvm.get_num_inputs g)) = r_in at h ⊢
  generalize set_tensor_info self.outputInfo prop.output_meta
    (int_to_unsigned (tvm.get_num_outputs g)) = r_out at h ⊢
  cases h1 : r_in.ret <;> cases h2 : r_out.ret <;>
    cases h3 : (configure_meta r_in.dest_info self.input_info_list).1 <;>
    cases h4 : (configure_meta r_out.dest_info self.output_info_list).1 <;>
    simp [h1, h2, h3, h4] at h ⊢

/-- The invariant holds after a `configure_instance` that did not throw, provided
the instance was configured before the call (so that `cleanup` ran) or both of its
info lists were empty. -/
theorem configure_instance_lists_match (tvm : TvmRuntime) (self : tvm_subplugin)
    (prop : GstTensorFilterProperties)
    (h : (configure_instance tvm self prop).thrown = none)
    (hs : self.empty_model = false
      ∨ (self.input_info_list = [] ∧ self.output_info_list = [])) :
    info_list_matches (configure_instance tvm self prop).self.inputInfo
        (configure_instance tvm self prop).self.input_info_list
      ∧ info_list_matches (configure_instance tvm self prop).self.outputInfo
        (configure_instance tvm self prop).self.output_info_list := by
  have key : ∀ s0 : tvm_subplugin, s0.input_info_list = [] → s0.output_info_list = [] →
      (read_model tvm s0 prop).thrown = none →
      info_list_matches (read_model tvm s0 prop).self.inputInfo
          (read_model tvm s0 prop).self.input_info_list
        ∧ info_list_matches (read_model tvm s0 prop).self.outputInfo
          (read_model tvm s0 prop).self.output_info_list := by
    intro s0 hi ho hok
    obtain ⟨p, f, g, -, -, -, hrm⟩ := read_model_ok_inv tvm s0 prop hok
    rw [hrm] at hok ⊢
    obtain ⟨a1, a2, a3, a4⟩ := configure_tensors_ok_lists tvm _ prop g hok
    simp only [hi, ho] at a1 a2 a3 a4 ⊢
    rw [a2, a4]
    exact ⟨configure_meta_matches _ a1, configure_meta_matches _ a3⟩
  cases hparse : (parse_custom_prop self.device prop.custom_properties).1
  · rw [configure_instance_parse_failed tvm self prop hparse] at h
    simp at h
  · cases he : self.empty_model
    · by_cases hp : prop.model_files.head? = none ∨ prop.model_files.head? = some ""
      · rw [configure_instance_no_path tvm self prop hparse he hp] at h
        simp at h
      · rw [configure_instance_reload tvm self prop hparse he hp] at h ⊢
        exact key _ (by simp [cleanup, he]) (by simp [cleanup, he]) h
    · rcases hs with h0 | ⟨hi, ho⟩
      · rw [he] at h0; cases h0
      · rw [configure_instance_of_empty tvm self prop hparse he] at h ⊢
        exact key _ hi ho h

/-- C11, at the failing input. On a fresh instance, a `configure_instance` whose
output type does not convert throws after `configure_meta` has filled
`input_info_list`, and leaves `empty_model` true, so the following `cleanup` changes
nothing. The next `configure_instance` (the properties of the `invoke` test) succeeds
with one input tensor `1:1:1:1`, but `input_info_list` then has two entries and
entry 0 still holds the shape `1:2:3:4` of the failed call: the invariant is broken,
and `invoke` allocates input 0 with the stale shape. -/
theorem info_lists_stale_after_failed_configure :
    (configure_instance test_tvm test_fresh test_prop_bad_output).thrown
        = some "Failed to configure tensor meta."
      ∧ (configure_instance test_tvm test_fresh test_prop_bad_output).self.empty_model = true
      ∧ test_after_failed_meta = (configure_instance test_tvm test_fresh test_prop_bad_output).self
      ∧ (configure_instance test_tvm test_after_failed_meta test_prop_invoke).thrown = none
      ∧ test_reopened.empty_model = false
      ∧ test_reopened.inputInfo.num_tensors = 1
      ∧ test_reopened.input_info_list.length = 2
      ∧ tvm_data_info_of (info_get test_reopened.inputInfo.info 0)
          = ⟨[1, 1, 1, 1], ⟨kDLFloat, 32, 1⟩⟩
      ∧ test_reopened.input_info_list[0]? = some ⟨[1, 2, 3, 4], ⟨kDLFloat, 32, 1⟩⟩
      ∧ ¬ info_list_matches test_reopened.inputInfo test_reopened.input_info_list
      ∧ invoke test_reopened
          = some ([some ⟨[1, 2, 3, 4], ⟨kDLFloat, 32, 1⟩⟩],
              [some ⟨[1, 1, 1, 1], ⟨kDLFloat, 32, 1⟩⟩]) := by
  refine ⟨by decide, by decide, cleanup_of_empty _ (by decide), by decide, by decide, by decide,
    by decide, by decide, by decide, ?_, by decide⟩
  intro h
  have h1 : test_reopened.input_info_list.length = test_reopened.inputInfo.num_tensors := h.1
  revert h1
  decide

end nnstreamer
